import Mathlib

/-!
Shallow embedding of the D3D12 shader cache subsystem of Ishiiruka
(`Source/Core/VideoBackends/D3D12/ShaderCache.cpp`) and of the DiscIO
filesystem factory (`Source/Core/DiscIO/Filesystem.cpp`).

Machine state (the file-static globals of `ShaderCache.cpp`) is passed
explicitly as a `ShaderCacheState` value; every mutating C++ function
becomes a Lean function from state to state.  External collaborators that
the spec excludes (UID derivation, shader source generation, the HLSL
compiler backend, file paths) enter as explicit inputs: a handler call
carries the UID and the generated source text, and the compiler's
outcomes are an oracle mapping a work unit to its result.
-/

/-- Bytecode bytes: the payload of a `D3DBlob` / `D3D12_SHADER_BYTECODE`.
An empty list models the zero-valued `D3D12_SHADER_BYTECODE {}` (null
pointer, zero length). -/
abbrev ByteCode := List Nat

/-- `struct ByteCodeCacheEntry` (ShaderCache.cpp lines 24-39): bytecode,
the `m_compiled` flag, the one-shot `std::atomic_flag m_initialized`, and
the debug-only source string `code`. -/
structure ByteCodeCacheEntry where
  m_shader_bytecode : ByteCode
  m_compiled : Bool
  m_initialized : Bool
  code : String
deriving DecidableEq, Repr

/-- The default-constructed entry: `m_compiled(false)`,
`m_shader_bytecode({})`, `m_initialized.clear()`. -/
def ByteCodeCacheEntry.mkDefault : ByteCodeCacheEntry :=
  { m_shader_bytecode := [], m_compiled := false, m_initialized := false, code := "" }

/-- `GeometryShaderUid`: opaque key plus the `IsPassthrough()` bit of its
uid data (both produced by the excluded UID-derivation collaborator). -/
structure GeometryShaderUid where
  uid_data : Nat
  passthrough : Bool
deriving DecidableEq, Repr

/-- `PixelShaderUid`: opaque key from the excluded derivation collaborator. -/
structure PixelShaderUid where
  uid_data : Nat
deriving DecidableEq, Repr

/-- `VertexShaderUid`: opaque key from the excluded derivation collaborator. -/
structure VertexShaderUid where
  uid_data : Nat
deriving DecidableEq, Repr

/-- Zero-initialized `GeometryShaderUid` (the `= {}` resets in `Init`). -/
def GeometryShaderUid.mkDefault : GeometryShaderUid := ⟨0, false⟩

/-- Zero-initialized `PixelShaderUid`. -/
def PixelShaderUid.mkDefault : PixelShaderUid := ⟨0⟩

/-- Zero-initialized `VertexShaderUid`. -/
def VertexShaderUid.mkDefault : VertexShaderUid := ⟨0⟩

/-- A stage cache (`std::unordered_map<Uid, ByteCodeCacheEntry>`) as an
association list with unique keys; entry identity is the key. -/
abbrev StageCache (α : Type) := List (α × ByteCodeCacheEntry)

/-- Lookup in a stage cache: the first entry stored under `k`. -/
def cacheFind? {α : Type} [DecidableEq α] : StageCache α → α → Option ByteCodeCacheEntry
  | [], _ => none
  | p :: ps, k => if p.1 = k then some p.2 else cacheFind? ps k

/-- Dereference the entry for key `k`: absent keys read as the
default-constructed entry (matching `operator[]` semantics once inserted). -/
def cacheGet {α : Type} [DecidableEq α] (c : StageCache α) (k : α) :
    ByteCodeCacheEntry :=
  (cacheFind? c k).getD ByteCodeCacheEntry.mkDefault

/-- `cache[k]` under the spin lock: find-or-default-construct, returning
the entry seen and the cache with the entry present. -/
def cacheIndex {α : Type} [DecidableEq α] (c : StageCache α) (k : α) :
    ByteCodeCacheEntry × StageCache α :=
  match cacheFind? c k with
  | some e => (e, c)
  | none => (ByteCodeCacheEntry.mkDefault, c ++ [(k, ByteCodeCacheEntry.mkDefault)])

/-- Write through a stable entry pointer: update the entry for `k` in
place when present (C++ mutates the pointee; a pointer write can create
no new map entry). -/
def cacheUpdate {α : Type} [DecidableEq α] :
    StageCache α → α → (ByteCodeCacheEntry → ByteCodeCacheEntry) → StageCache α
  | [], _, _ => []
  | p :: ps, k, f =>
    if p.1 = k then (p.1, f p.2) :: cacheUpdate ps k f else p :: cacheUpdate ps k f

/-- The key set of a stage cache. -/
def cacheKeys {α : Type} (c : StageCache α) : List α := c.map Prod.fst

/-- Shader pipeline stage. -/
inductive Stage
| GS
| PS
| VS
deriving DecidableEq, Repr

/-- The stage-tagged UID a `ShaderCompilerWorkUnit`'s result handler
closure captures. -/
inductive UnitUid
| gs (u : GeometryShaderUid)
| ps (u : PixelShaderUid)
| vs (u : VertexShaderUid)
deriving DecidableEq, Repr

/-- A `ShaderCompilerWorkUnit` as this subsystem fills it: the captured
UID (binding the `ResultHandler` closure) and the generated source text
held in `wunit->code`.  Entry point, flags and target profile are fixed
strings from external collaborators and play no role in the claims. -/
structure ShaderCompilerWorkUnit where
  wuid : UnitUid
  code : String
deriving DecidableEq, Repr

/-- Outcome of the external HLSL compiler for one work unit:
`SUCCEEDED(wunit->cresult)` with the produced bytecode, or failure with
the diagnostic text in `wunit->error`. -/
inductive CompileResult
| success (bytecode : ByteCode)
| failure (err : String)
deriving DecidableEq, Repr

/-- One `PanicAlert` raised by a failure handler: the stage, the dump
file named in the message, and the diagnostic text included in it. -/
structure AlertRecord where
  stage : Stage
  filename : String
  errorText : String
deriving DecidableEq, Repr

/-- What `s_last_geometry_shader_bytecode` points at: the static sentinel
`s_pass_entry`, or the cache entry for a UID (entries are stable, so the
key identifies the pointee). -/
inductive GsActive
| passEntry
| entryFor (u : GeometryShaderUid)
deriving DecidableEq, Repr

/-- `D3D12_PRIMITIVE_TOPOLOGY_TYPE` values used by the shader cache. -/
inductive TopologyType
| triangle
| line
| point
deriving DecidableEq, Repr

/-- The file-static globals of `ShaderCache.cpp`, plus the observable
effects of the external collaborators it drives (dispatched work units,
the pending queue, disk-cache files, dump files, alerts, the
`command_list_mgr->m_dirty_pso` flag). -/
structure ShaderCacheState where
  s_pass_entry : ByteCodeCacheEntry
  gs_bytecode_cache : StageCache GeometryShaderUid
  ps_bytecode_cache : StageCache PixelShaderUid
  vs_bytecode_cache : StageCache VertexShaderUid
  s_gs_disk_cache : List (GeometryShaderUid × ByteCode)
  s_ps_disk_cache : List (PixelShaderUid × ByteCode)
  s_vs_disk_cache : List (VertexShaderUid × ByteCode)
  s_last_geometry_shader_bytecode : Option GsActive
  s_last_pixel_shader_bytecode : Option PixelShaderUid
  s_last_vertex_shader_bytecode : Option VertexShaderUid
  s_last_geometry_shader_uid : GeometryShaderUid
  s_last_pixel_shader_uid : PixelShaderUid
  s_last_vertex_shader_uid : VertexShaderUid
  s_last_cpu_geometry_shader_uid : GeometryShaderUid
  s_last_cpu_pixel_shader_uid : PixelShaderUid
  s_last_cpu_vertex_shader_uid : VertexShaderUid
  s_current_primitive_topology : TopologyType
  m_dirty_pso : Bool
  gs_num_failures : Nat
  ps_num_failures : Nat
  vs_num_failures : Nat
  dump_files : List (String × String)
  alerts : List AlertRecord
  pending : List ShaderCompilerWorkUnit
  dispatch_log : List ShaderCompilerWorkUnit
deriving DecidableEq, Repr

/-- The all-zero state the process starts from (static storage duration
zero-initializes every global; `s_current_primitive_topology` starts as
triangle per its initializer). -/
def zeroState : ShaderCacheState :=
  { s_pass_entry := ByteCodeCacheEntry.mkDefault
    gs_bytecode_cache := []
    ps_bytecode_cache := []
    vs_bytecode_cache := []
    s_gs_disk_cache := []
    s_ps_disk_cache := []
    s_vs_disk_cache := []
    s_last_geometry_shader_bytecode := none
    s_last_pixel_shader_bytecode := none
    s_last_vertex_shader_bytecode := none
    s_last_geometry_shader_uid := GeometryShaderUid.mkDefault
    s_last_pixel_shader_uid := PixelShaderUid.mkDefault
    s_last_vertex_shader_uid := VertexShaderUid.mkDefault
    s_last_cpu_geometry_shader_uid := GeometryShaderUid.mkDefault
    s_last_cpu_pixel_shader_uid := PixelShaderUid.mkDefault
    s_last_cpu_vertex_shader_uid := VertexShaderUid.mkDefault
    s_current_primitive_topology := TopologyType.triangle
    m_dirty_pso := false
    gs_num_failures := 0
    ps_num_failures := 0
    vs_num_failures := 0
    dump_files := []
    alerts := []
    pending := []
    dispatch_log := [] }

/-- The `%04i` zero-padding of the failure counters in the dump file
names. -/
def pad4 (n : Nat) : String :=
  let d := toString n
  if 4 ≤ d.length then d else String.mk (List.replicate (4 - d.length) '0' ++ d.data)

/-- The external `File::GetUserPath(D_DUMP_IDX)` dump directory, held
fixed for the model. -/
def userDumpPath : String := "User/Dump/"

/-- Dump file name for a failed compile: the directory, `bad_<stage>_`,
the `%04i` counter, `.txt`. -/
def dumpFileName (st : Stage) (n : Nat) : String :=
  match st with
  | Stage.GS => userDumpPath ++ "bad_gs_" ++ pad4 n ++ ".txt"
  | Stage.PS => userDumpPath ++ "bad_ps_" ++ pad4 n ++ ".txt"
  | Stage.VS => userDumpPath ++ "bad_vs_" ++ pad4 n ++ ".txt"

/-- `s_compiler->CompileShaderAsync(wunit)`: the unit goes in flight; the
dispatch log is the model's ghost record of every submission. -/
def CompileShaderAsync (s : ShaderCacheState) (w : ShaderCompilerWorkUnit) :
    ShaderCacheState :=
  { s with pending := s.pending ++ [w], dispatch_log := s.dispatch_log ++ [w] }

/-- `PushByteCode` (ShaderCache.cpp lines 168-174) applied through the
captured entry pointer: store the blob's data and length, set
`m_compiled`.  (`s_shader_blob_list` only tracks blob ownership for
release at shutdown and is elided.) -/
def pushByteCodeEntry (b : ByteCode) (e : ByteCodeCacheEntry) : ByteCodeCacheEntry :=
  { e with m_shader_bytecode := b, m_compiled := true }

/-- The `ResultHandler` closure of a work unit, run by
`ProcCompilationResults` on the submission context.  On success: append
the bytecode to the stage's disk cache, then `PushByteCode` into the
captured entry.  On failure: write the dump file, bump the stage's
`num_failures`, raise the `PanicAlert` naming the file; the entry is not
touched.  The geometry and pixel handlers write the failing source and
the diagnostic text to the dump file; the vertex handler (lines 374-387)
writes only the source. -/
def ResultHandler (s : ShaderCacheState) (w : ShaderCompilerWorkUnit)
    (r : CompileResult) : ShaderCacheState :=
  match w.wuid, r with
  | UnitUid.gs u, CompileResult.success b =>
      { s with s_gs_disk_cache := s.s_gs_disk_cache ++ [(u, b)],
               gs_bytecode_cache := cacheUpdate s.gs_bytecode_cache u (pushByteCodeEntry b) }
  | UnitUid.ps u, CompileResult.success b =>
      { s with s_ps_disk_cache := s.s_ps_disk_cache ++ [(u, b)],
               ps_bytecode_cache := cacheUpdate s.ps_bytecode_cache u (pushByteCodeEntry b) }
  | UnitUid.vs u, CompileResult.success b =>
      { s with s_vs_disk_cache := s.s_vs_disk_cache ++ [(u, b)],
               vs_bytecode_cache := cacheUpdate s.vs_bytecode_cache u (pushByteCodeEntry b) }
  | UnitUid.gs _, CompileResult.failure err =>
      let fname := dumpFileName Stage.GS s.gs_num_failures
      { s with gs_num_failures := s.gs_num_failures + 1,
               dump_files := s.dump_files ++ [(fname, w.code ++ err)],
               alerts := s.alerts ++ [{ stage := Stage.GS, filename := fname, errorText := err }] }
  | UnitUid.ps _, CompileResult.failure err =>
      let fname := dumpFileName Stage.PS s.ps_num_failures
      { s with ps_num_failures := s.ps_num_failures + 1,
               dump_files := s.dump_files ++ [(fname, w.code ++ err)],
               alerts := s.alerts ++ [{ stage := Stage.PS, filename := fname, errorText := err }] }
  | UnitUid.vs _, CompileResult.failure err =>
      let fname := dumpFileName Stage.VS s.vs_num_failures
      { s with vs_num_failures := s.vs_num_failures + 1,
               dump_files := s.dump_files ++ [(fname, w.code)],
               alerts := s.alerts ++ [{ stage := Stage.VS, filename := fname, errorText := err }] }

/-- Run the handlers of a list of finished work units in order. -/
def runHandlers (s : ShaderCacheState)
    (finished : ShaderCompilerWorkUnit → Option CompileResult)
    (l : List ShaderCompilerWorkUnit) : ShaderCacheState :=
  l.foldl (fun st w =>
    match finished w with
    | some r => ResultHandler st w r
    | none => st) s

/-- `s_compiler->ProcCompilationResults()`: every pending work unit the
compiler has finished (per the oracle `finished`) leaves the queue and
has its `ResultHandler` invoked; unfinished units stay pending. -/
def ProcCompilationResults (s : ShaderCacheState)
    (finished : ShaderCompilerWorkUnit → Option CompileResult) : ShaderCacheState :=
  let done := s.pending.filter (fun w => (finished w).isSome)
  let rest := s.pending.filter (fun w => (finished w).isNone)
  runHandlers { s with pending := rest } finished done

/-- `ShaderCache::SetCurrentPrimitiveTopology` (lines 176-193).  The
`PRIMITIVE_*` constants come from the external VideoCommon primitive
enumeration (points, lines, triangles in order). -/
def PRIMITIVE_POINTS : Nat := 0

/-- External `PRIMITIVE_LINES` enumerator. -/
def PRIMITIVE_LINES : Nat := 1

/-- External `PRIMITIVE_TRIANGLES` enumerator. -/
def PRIMITIVE_TRIANGLES : Nat := 2

/-- Switch on the primitive type; an invalid value trips `CHECK` (a log)
and leaves the topology unchanged. -/
def SetCurrentPrimitiveTopology (s : ShaderCacheState) (gs_primitive_type : Nat) :
    ShaderCacheState :=
  if gs_primitive_type = PRIMITIVE_TRIANGLES then
    { s with s_current_primitive_topology := TopologyType.triangle }
  else if gs_primitive_type = PRIMITIVE_LINES then
    { s with s_current_primitive_topology := TopologyType.line }
  else if gs_primitive_type = PRIMITIVE_POINTS then
    { s with s_current_primitive_topology := TopologyType.point }
  else s

/-- `ShaderCache::HandleGSUIDChange` (lines 195-267).  `gen_code` is the
source text the excluded `GenerateGeometryShaderCode` collaborator
produces for this UID.  Passthrough UIDs bind the sentinel and return;
otherwise `operator[]` under the lock, bind the entry when on the GPU
thread, `test_and_set` the one-shot flag, and dispatch a compile only
when its previous value was false. -/
def HandleGSUIDChange (s : ShaderCacheState) (gs_uid : GeometryShaderUid)
    (gen_code : String) (on_gpu_thread : Bool) : ShaderCacheState :=
  if gs_uid.passthrough then
    { s with s_last_geometry_shader_bytecode := some GsActive.passEntry }
  else
    let fc := cacheIndex s.gs_bytecode_cache gs_uid
    let s1 := { s with gs_bytecode_cache := fc.2 }
    let s2 :=
      if on_gpu_thread then
        { s1 with s_last_geometry_shader_bytecode := some (GsActive.entryFor gs_uid) }
      else s1
    if fc.1.m_initialized then s2
    else
      let c3 := cacheUpdate s2.gs_bytecode_cache gs_uid (fun e => { e with m_initialized := true })
      let s3 := { s2 with gs_bytecode_cache := c3 }
      CompileShaderAsync s3 { wuid := UnitUid.gs gs_uid, code := gen_code }

/-- `ShaderCache::HandlePSUIDChange` (lines 268-329). -/
def HandlePSUIDChange (s : ShaderCacheState) (ps_uid : PixelShaderUid)
    (gen_code : String) (on_gpu_thread : Bool) : ShaderCacheState :=
  let fc := cacheIndex s.ps_bytecode_cache ps_uid
  let s1 := { s with ps_bytecode_cache := fc.2 }
  let s2 :=
    if on_gpu_thread then
      { s1 with s_last_pixel_shader_bytecode := some ps_uid }
    else s1
  if fc.1.m_initialized then s2
  else
    let c3 := cacheUpdate s2.ps_bytecode_cache ps_uid (fun e => { e with m_initialized := true })
    let s3 := { s2 with ps_bytecode_cache := c3 }
    CompileShaderAsync s3 { wuid := UnitUid.ps ps_uid, code := gen_code }

/-- `ShaderCache::HandleVSUIDChange` (lines 331-390). -/
def HandleVSUIDChange (s : ShaderCacheState) (vs_uid : VertexShaderUid)
    (gen_code : String) (on_gpu_thread : Bool) : ShaderCacheState :=
  let fc := cacheIndex s.vs_bytecode_cache vs_uid
  let s1 := { s with vs_bytecode_cache := fc.2 }
  let s2 :=
    if on_gpu_thread then
      { s1 with s_last_vertex_shader_bytecode := some vs_uid }
    else s1
  if fc.1.m_initialized then s2
  else
    let c3 := cacheUpdate s2.vs_bytecode_cache vs_uid (fun e => { e with m_initialized := true })
    let s3 := { s2 with vs_bytecode_cache := c3 }
    CompileShaderAsync s3 { wuid := UnitUid.vs vs_uid, code := gen_code }

/-- One UID-change handler invocation, for reasoning about arbitrary
interleavings of the three handlers from either execution context. -/
inductive HandlerCall
| gsCall (uid : GeometryShaderUid) (gen_code : String) (on_gpu_thread : Bool)
| psCall (uid : PixelShaderUid) (gen_code : String) (on_gpu_thread : Bool)
| vsCall (uid : VertexShaderUid) (gen_code : String) (on_gpu_thread : Bool)
deriving DecidableEq, Repr

/-- Apply one handler call. -/
def applyHandlerCall (s : ShaderCacheState) (c : HandlerCall) : ShaderCacheState :=
  match c with
  | HandlerCall.gsCall u g t => HandleGSUIDChange s u g t
  | HandlerCall.psCall u g t => HandlePSUIDChange s u g t
  | HandlerCall.vsCall u g t => HandleVSUIDChange s u g t

/-- Apply a sequence of handler calls in order. -/
def applyHandlerCalls (s : ShaderCacheState) (calls : List HandlerCall) :
    ShaderCacheState :=
  calls.foldl applyHandlerCall s

/-- The graphics-state inputs of one `PrepareShaders` call, already put
through the excluded pure collaborators: `GetGeometryShaderUid`,
`GetPixelShaderUidD3D11`, `GetVertexShaderUidD3D11` give the three stage
UIDs and `Generate*ShaderCode*` the source each handler would compile. -/
structure PrepareInput where
  gs_primitive_type : Nat
  gs_uid : GeometryShaderUid
  ps_uid : PixelShaderUid
  vs_uid : VertexShaderUid
  gs_code : String
  ps_code : String
  vs_code : String
deriving DecidableEq, Repr

/-- `ShaderCache::PrepareShaders` (lines 392-500): set the topology,
derive the three UIDs (carried in `inp`), on the GPU thread first drain
finished compiles, compare each UID against the calling context's memo
slot, return when nothing changed, else update the changed memos (and on
the GPU thread set the PSO-dirty flag) and run the changed stages'
handlers.  (The `_DEBUG`-only UID-checker block is compiled out and
elided.) -/
def PrepareShaders (s : ShaderCacheState) (inp : PrepareInput)
    (finished : ShaderCompilerWorkUnit → Option CompileResult)
    (on_gpu_thread : Bool) : ShaderCacheState :=
  let s1 := SetCurrentPrimitiveTopology s inp.gs_primitive_type
  let s2 := if on_gpu_thread then ProcCompilationResults s1 finished else s1
  let gs_changed :=
    if on_gpu_thread then decide (inp.gs_uid ≠ s2.s_last_geometry_shader_uid)
    else decide (inp.gs_uid ≠ s2.s_last_cpu_geometry_shader_uid)
  let ps_changed :=
    if on_gpu_thread then decide (inp.ps_uid ≠ s2.s_last_pixel_shader_uid)
    else decide (inp.ps_uid ≠ s2.s_last_cpu_pixel_shader_uid)
  let vs_changed :=
    if on_gpu_thread then decide (inp.vs_uid ≠ s2.s_last_vertex_shader_uid)
    else decide (inp.vs_uid ≠ s2.s_last_cpu_vertex_shader_uid)
  if !gs_changed && !ps_changed && !vs_changed then s2
  else
    let s3 :=
      if on_gpu_thread then
        { s2 with
          s_last_geometry_shader_uid :=
            if gs_changed then inp.gs_uid else s2.s_last_geometry_shader_uid,
          s_last_pixel_shader_uid :=
            if ps_changed then inp.ps_uid else s2.s_last_pixel_shader_uid,
          s_last_vertex_shader_uid :=
            if vs_changed then inp.vs_uid else s2.s_last_vertex_shader_uid,
          m_dirty_pso := true }
      else
        { s2 with
          s_last_cpu_geometry_shader_uid :=
            if gs_changed then inp.gs_uid else s2.s_last_cpu_geometry_shader_uid,
          s_last_cpu_pixel_shader_uid :=
            if ps_changed then inp.ps_uid else s2.s_last_cpu_pixel_shader_uid,
          s_last_cpu_vertex_shader_uid :=
            if vs_changed then inp.vs_uid else s2.s_last_cpu_vertex_shader_uid }
    let s4 := if gs_changed then HandleGSUIDChange s3 inp.gs_uid inp.gs_code on_gpu_thread else s3
    let s5 := if ps_changed then HandlePSUIDChange s4 inp.ps_uid inp.ps_code on_gpu_thread else s4
    if vs_changed then HandleVSUIDChange s5 inp.vs_uid inp.vs_code on_gpu_thread else s5

/-- Dereference `s_last_geometry_shader_bytecode`. -/
def derefGs (s : ShaderCacheState) : Option ByteCodeCacheEntry :=
  match s.s_last_geometry_shader_bytecode with
  | none => none
  | some GsActive.passEntry => some s.s_pass_entry
  | some (GsActive.entryFor u) => some (cacheGet s.gs_bytecode_cache u)

/-- Dereference `s_last_pixel_shader_bytecode`. -/
def derefPs (s : ShaderCacheState) : Option ByteCodeCacheEntry :=
  s.s_last_pixel_shader_bytecode.map (cacheGet s.ps_bytecode_cache)

/-- Dereference `s_last_vertex_shader_bytecode`. -/
def derefVs (s : ShaderCacheState) : Option ByteCodeCacheEntry :=
  s.s_last_vertex_shader_bytecode.map (cacheGet s.vs_bytecode_cache)

/-- The readiness conjunction `TestShaders` tests: the three active
entries exist and all carry `m_compiled`. -/
def activeAllCompiled (s : ShaderCacheState) : Bool :=
  match derefGs s, derefPs s, derefVs s with
  | some g, some p, some v => g.m_compiled && p.m_compiled && v.m_compiled
  | _, _, _ => false

/-- The spin loop of `TestShaders` (lines 510-521): while the conjunction
fails, drain completions (`oracles k` is the compiler's finished set at
iteration `k`), break immediately under `bFullAsyncShaderCompilation`,
else yield and retry.  `fuel` bounds the modelled iterations; `none`
means the loop was still spinning. -/
def testShadersLoop (oracles : Nat → ShaderCompilerWorkUnit → Option CompileResult)
    (fullAsync : Bool) : Nat → Nat → ShaderCacheState → Option (Bool × ShaderCacheState)
  | 0, _, _ => none
  | fuel + 1, k, s =>
    if activeAllCompiled s then some (true, s)
    else
      let s2 := ProcCompilationResults s (oracles k)
      if fullAsync then some (activeAllCompiled s2, s2)
      else testShadersLoop oracles fullAsync fuel (k + 1) s2

/-- `ShaderCache::TestShaders` (lines 502-525): false straight away when
any active pointer is null, else the spin loop, and finally the
readiness conjunction re-read. -/
def TestShaders (s : ShaderCacheState)
    (oracles : Nat → ShaderCompilerWorkUnit → Option CompileResult)
    (fullAsync : Bool) (fuel : Nat) : Option (Bool × ShaderCacheState) :=
  if s.s_last_geometry_shader_bytecode.isNone
      || s.s_last_pixel_shader_bytecode.isNone
      || s.s_last_vertex_shader_bytecode.isNone then
    some (false, s)
  else
    testShadersLoop oracles fullAsync fuel 0 s

/-- `ShaderCache::InsertByteCode` (lines 527-538) on one stage cache:
`operator[]` under the lock, then store the blob and set `m_compiled`
and `m_initialized` through the entry pointer. -/
def insertByteCodeCache {α : Type} [DecidableEq α] (c : StageCache α) (uid : α)
    (b : ByteCode) : StageCache α :=
  let fc := cacheIndex c uid
  cacheUpdate fc.2 uid (fun e =>
    { e with m_shader_bytecode := b, m_compiled := true, m_initialized := true })

/-- `ShaderCacheInserter::Read` (lines 77-81) replayed over a whole disk
cache file: `LinearDiskCache::OpenAndRead` hands every persisted record
to the inserter, which wraps the bytes in a blob and calls
`InsertByteCode`. -/
def readDiskCache {α : Type} [DecidableEq α] (c : StageCache α)
    (records : List (α × ByteCode)) : StageCache α :=
  records.foldl (fun acc r => insertByteCodeCache acc r.1 r.2) c

/-- `ShaderCache::Clear` (lines 135-138): the body is empty. -/
def ShaderCacheClear (s : ShaderCacheState) : ShaderCacheState := s

/-- `ShaderCache::Init` (lines 84-133): mark the passthrough sentinel
compiled and initialized, null the active pointers, zero the memo UIDs,
replay each stage's disk cache file (`records` parameters carry the
pre-existing on-disk contents) through its `ShaderCacheInserter`, and
when `bEnableShaderDebugging` call `Clear`.  Path handling and the
statistics counters are external and elided. -/
def ShaderCacheInit (s : ShaderCacheState)
    (gs_records : List (GeometryShaderUid × ByteCode))
    (ps_records : List (PixelShaderUid × ByteCode))
    (vs_records : List (VertexShaderUid × ByteCode))
    (bEnableShaderDebugging : Bool) : ShaderCacheState :=
  let s1 :=
    { s with
      s_pass_entry := { s.s_pass_entry with m_compiled := true, m_initialized := true },
      s_last_geometry_shader_bytecode := none,
      s_last_pixel_shader_bytecode := none,
      s_last_vertex_shader_bytecode := none,
      s_last_geometry_shader_uid := GeometryShaderUid.mkDefault,
      s_last_pixel_shader_uid := PixelShaderUid.mkDefault,
      s_last_vertex_shader_uid := VertexShaderUid.mkDefault,
      s_last_cpu_geometry_shader_uid := GeometryShaderUid.mkDefault,
      s_last_cpu_pixel_shader_uid := PixelShaderUid.mkDefault,
      s_last_cpu_vertex_shader_uid := VertexShaderUid.mkDefault }
  let s2 :=
    { s1 with
      gs_bytecode_cache := readDiskCache s1.gs_bytecode_cache gs_records,
      ps_bytecode_cache := readDiskCache s1.ps_bytecode_cache ps_records,
      vs_bytecode_cache := readDiskCache s1.vs_bytecode_cache vs_records,
      s_gs_disk_cache := gs_records,
      s_ps_disk_cache := ps_records,
      s_vs_disk_cache := vs_records }
  if bEnableShaderDebugging then ShaderCacheClear s2 else s2

/-- `ShaderCache::GetGeometryShaderFromUid` (line 550):
`gs_bytecode_cache[*uid].m_shader_bytecode` — `operator[]` default
constructs a missing entry, so the query returns the bytecode seen and
the cache after the access. -/
def GetGeometryShaderFromUid (s : ShaderCacheState) (uid : GeometryShaderUid) :
    ByteCode × ShaderCacheState :=
  let fc := cacheIndex s.gs_bytecode_cache uid
  (fc.1.m_shader_bytecode, { s with gs_bytecode_cache := fc.2 })

/-- `ShaderCache::GetPixelShaderFromUid` (line 551). -/
def GetPixelShaderFromUid (s : ShaderCacheState) (uid : PixelShaderUid) :
    ByteCode × ShaderCacheState :=
  let fc := cacheIndex s.ps_bytecode_cache uid
  (fc.1.m_shader_bytecode, { s with ps_bytecode_cache := fc.2 })

/-- `ShaderCache::GetVertexShaderFromUid` (line 552). -/
def GetVertexShaderFromUid (s : ShaderCacheState) (uid : VertexShaderUid) :
    ByteCode × ShaderCacheState :=
  let fc := cacheIndex s.vs_bytecode_cache uid
  (fc.1.m_shader_bytecode, { s with vs_bytecode_cache := fc.2 })

/-- An `IFileSystem` as `DiscIO::CreateFileSystem` produces one: the
concrete `CFileSystemGCWii` built over the volume.  Volume contents and
the parse that `IsValid` reports are external (`FileSystemGCWii.cpp` is
outside the spec's scope), so the filesystem records its volume and the
verdict of that parse. -/
structure CFileSystemGCWii (V : Type) where
  m_rVolume : V
  m_Valid : Bool
deriving DecidableEq, Repr

/-- `IFileSystem::IsValid` as `CFileSystemGCWii` overrides it. -/
def CFileSystemGCWii.IsValid {V : Type} (fs : CFileSystemGCWii V) : Bool := fs.m_Valid

/-- The external `CFileSystemGCWii` constructor: records the volume
pointer; `parseOk` abstracts the partition parse that decides
`IsValid`. -/
def mkCFileSystemGCWii {V : Type} (parseOk : V → Bool) (v : V) : CFileSystemGCWii V :=
  { m_rVolume := v, m_Valid := parseOk v }

/-- `DiscIO::CreateFileSystem` (Filesystem.cpp lines 19-33): null volume
gives null; `std::make_unique` constructs the filesystem (the
`!filesystem` null-check is kept although `make_unique` cannot yield
null); an invalid filesystem is reset to null; otherwise the filesystem
is returned. -/
def CreateFileSystem {V : Type} (parseOk : V → Bool) (volume : Option V) :
    Option (CFileSystemGCWii V) :=
  match volume with
  | none => none
  | some v =>
    let filesystem : Option (CFileSystemGCWii V) := some (mkCFileSystemGCWii parseOk v)
    match filesystem with
    | none => none
    | some fs => if !fs.IsValid then none else some fs

/-- How many work units in `l` carry the stage-tagged UID `u`. -/
def countUid (l : List ShaderCompilerWorkUnit) (u : UnitUid) : Nat :=
  (l.filter (fun w => decide (w.wuid = u))).length

/-- How many compiles were ever dispatched for `u`. -/
def dispatchCount (s : ShaderCacheState) (u : UnitUid) : Nat :=
  countUid s.dispatch_log u

/-- The one-shot `m_initialized` flag of the entry for a stage-tagged
UID. -/
def uidInitialized (s : ShaderCacheState) : UnitUid → Bool
  | UnitUid.gs u => (cacheGet s.gs_bytecode_cache u).m_initialized
  | UnitUid.ps u => (cacheGet s.ps_bytecode_cache u).m_initialized
  | UnitUid.vs u => (cacheGet s.vs_bytecode_cache u).m_initialized

/-- The single-dispatch invariant: never more than one compile per UID,
and none at all before the one-shot flag is set. -/
def SingleDispatchInv (s : ShaderCacheState) : Prop :=
  ∀ u : UnitUid, dispatchCount s u ≤ 1 ∧
    (uidInitialized s u = false → dispatchCount s u = 0)

/-- The last persisted record for a key (later records overwrite earlier
ones on replay, as `operator[]` assignment does). -/
def lookupLastRecord {α : Type} [DecidableEq α] : List (α × ByteCode) → α → Option ByteCode
  | [], _ => none
  | r :: rs, k =>
    match lookupLastRecord rs k with
    | some b => some b
    | none => if r.1 = k then some r.2 else none

/-- The entry `cache[k]` hands back is the entry `cacheGet` reads. -/
theorem cacheIndex_fst {α : Type} [DecidableEq α] (c : StageCache α) (k : α) :
    (cacheIndex c k).1 = cacheGet c k := by
  unfold cacheIndex cacheGet
  cases h : cacheFind? c k <;> simp [h]

/-- A key is absent exactly when `cacheFind?` misses. -/
theorem cacheFind?_eq_none_iff {α : Type} [DecidableEq α] (c : StageCache α) (k : α) :
    cacheFind? c k = none ↔ k ∉ cacheKeys c := by
  induction c with
  | nil => simp [cacheFind?, cacheKeys]
  | cons p ps ih =>
    by_cases h : p.1 = k
    · subst h
      simp [cacheFind?, cacheKeys]
    · simp only [cacheFind?, if_neg h, cacheKeys, List.map_cons, List.mem_cons, ih]
      constructor
      · rintro hk (hh | hh)
        · exact h hh.symm
        · exact hk hh
      · exact fun hk hh => hk (Or.inr hh)

/-- Updating key `k` maps its entry through `f` at `cacheFind?`. -/
theorem cacheFind?_cacheUpdate_self {α : Type} [DecidableEq α] (c : StageCache α)
    (k : α) (f : ByteCodeCacheEntry → ByteCodeCacheEntry) :
    cacheFind? (cacheUpdate c k f) k = (cacheFind? c k).map f := by
  induction c with
  | nil => simp [cacheFind?, cacheUpdate]
  | cons p ps ih =>
    by_cases h : p.1 = k <;> simp [cacheFind?, cacheUpdate, h, ih]

/-- Updating key `k` leaves other keys' `cacheFind?` untouched. -/
theorem cacheFind?_cacheUpdate_ne {α : Type} [DecidableEq α] (c : StageCache α)
    (k k' : α) (f : ByteCodeCacheEntry → ByteCodeCacheEntry) (h : k' ≠ k) :
    cacheFind? (cacheUpdate c k f) k' = cacheFind? c k' := by
  induction c with
  | nil => simp [cacheUpdate]
  | cons p ps ih =>
    by_cases hp : p.1 = k
    · have hne : ¬ p.1 = k' := by rw [hp]; exact fun hh => h hh.symm
      simp [cacheFind?, cacheUpdate, hp, hne, Ne.symm h, ih]
    · by_cases hp' : p.1 = k' <;> simp [cacheFind?, cacheUpdate, hp, hp', h, ih]

/-- `cacheFind?` over an appended singleton. -/
theorem cacheFind?_append_single {α : Type} [DecidableEq α] (c : StageCache α)
    (k k' : α) (e : ByteCodeCacheEntry) :
    cacheFind? (c ++ [(k, e)]) k' =
      (cacheFind? c k').orElse (fun _ => if k = k' then some e else none) := by
  induction c with
  | nil => by_cases h : k = k' <;> simp [cacheFind?, h]
  | cons p ps ih =>
    by_cases hp : p.1 = k' <;> simp [cacheFind?, hp, ih]

/-- After `cache[k]`, key `k` reads the same entry as before the access. -/
theorem cacheFind?_cacheIndex_snd_self {α : Type} [DecidableEq α] (c : StageCache α)
    (k : α) : cacheFind? (cacheIndex c k).2 k = some (cacheGet c k) := by
  unfold cacheIndex cacheGet
  cases h : cacheFind? c k with
  | some e => simp [h]
  | none => simp [cacheFind?_append_single, h]

/-- After `cache[k]`, other keys read as before. -/
theorem cacheFind?_cacheIndex_snd_ne {α : Type} [DecidableEq α] (c : StageCache α)
    (k k' : α) (h : k' ≠ k) :
    cacheFind? (cacheIndex c k).2 k' = cacheFind? c k' := by
  unfold cacheIndex
  cases hf : cacheFind? c k with
  | some e => simp
  | none =>
    have hne : k ≠ k' := fun hh => h hh.symm
    simp [cacheFind?_append_single, hne]

/-- Find-or-create then a pointer write through the entry for `k`: key
`k` now reads the written entry. -/
theorem cacheGet_update_index_self {α : Type} [DecidableEq α] (c : StageCache α)
    (k : α) (f : ByteCodeCacheEntry → ByteCodeCacheEntry) :
    cacheGet (cacheUpdate (cacheIndex c k).2 k f) k = f (cacheGet c k) := by
  unfold cacheGet
  rw [cacheFind?_cacheUpdate_self, cacheFind?_cacheIndex_snd_self]
  rfl

/-- Find-or-create then a pointer write through the entry for `k`: other
keys read as before. -/
theorem cacheGet_update_index_ne {α : Type} [DecidableEq α] (c : StageCache α)
    (k k' : α) (f : ByteCodeCacheEntry → ByteCodeCacheEntry) (h : k' ≠ k) :
    cacheGet (cacheUpdate (cacheIndex c k).2 k f) k' = cacheGet c k' := by
  unfold cacheGet
  rw [cacheFind?_cacheUpdate_ne _ _ _ _ h, cacheFind?_cacheIndex_snd_ne _ _ _ h]

/-- A pointer write changes no key set. -/
theorem cacheKeys_cacheUpdate {α : Type} [DecidableEq α] (c : StageCache α)
    (k : α) (f : ByteCodeCacheEntry → ByteCodeCacheEntry) :
    cacheKeys (cacheUpdate c k f) = cacheKeys c := by
  induction c with
  | nil => rfl
  | cons p ps ih =>
    by_cases h : p.1 = k <;> simp [cacheUpdate, cacheKeys, h] <;>
      simpa [cacheKeys] using ih

/-- An initialized entry exists in the map (the default is uninitialized),
so `cache[k]` inserts nothing. -/
theorem cacheIndex_snd_of_initialized {α : Type} [DecidableEq α] (c : StageCache α)
    (k : α) (h : (cacheGet c k).m_initialized = true) : (cacheIndex c k).2 = c := by
  unfold cacheIndex
  cases hf : cacheFind? c k with
  | some e => simp
  | none =>
    exfalso
    unfold cacheGet at h
    rw [hf] at h
    simp [ByteCodeCacheEntry.mkDefault] at h

/-- Passthrough case of `HandleGSUIDChange`: bind the sentinel, return. -/
theorem handleGS_of_pass (s : ShaderCacheState) (u : GeometryShaderUid) (c : String)
    (t : Bool) (h : u.passthrough = true) :
    HandleGSUIDChange s u c t =
      { s with s_last_geometry_shader_bytecode := some GsActive.passEntry } := by
  simp [HandleGSUIDChange, h]

/-- Already-initialized case of `HandleGSUIDChange`: only the GPU-thread
binding moves. -/
theorem handleGS_of_init (s : ShaderCacheState) (u : GeometryShaderUid) (c : String)
    (t : Bool) (hp : u.passthrough = false)
    (hi : (cacheGet s.gs_bytecode_cache u).m_initialized = true) :
    HandleGSUIDChange s u c t =
      if t then { s with s_last_geometry_shader_bytecode := some (GsActive.entryFor u) }
      else s := by
  have hidx := cacheIndex_snd_of_initialized s.gs_bytecode_cache u hi
  simp only [HandleGSUIDChange, hp, Bool.false_eq_true, if_false, cacheIndex_fst, hi,
    if_true, hidx]

/-- Fresh-entry case of `HandleGSUIDChange`: find-or-create, set the
one-shot flag, dispatch the compile. -/
theorem handleGS_of_fresh (s : ShaderCacheState) (u : GeometryShaderUid) (c : String)
    (t : Bool) (hp : u.passthrough = false)
    (hi : (cacheGet s.gs_bytecode_cache u).m_initialized = false) :
    HandleGSUIDChange s u c t =
      { s with
        gs_bytecode_cache :=
          cacheUpdate (cacheIndex s.gs_bytecode_cache u).2 u
            (fun e => { e with m_initialized := true }),
        s_last_geometry_shader_bytecode :=
          if t then some (GsActive.entryFor u) else s.s_last_geometry_shader_bytecode,
        pending := s.pending ++ [{ wuid := UnitUid.gs u, code := c }],
        dispatch_log := s.dispatch_log ++ [{ wuid := UnitUid.gs u, code := c }] } := by
  cases t <;>
    simp [HandleGSUIDChange, hp, hi, cacheIndex_fst, CompileShaderAsync]

/-- Already-initialized case of `HandlePSUIDChange`. -/
theorem handlePS_of_init (s : ShaderCacheState) (u : PixelShaderUid) (c : String)
    (t : Bool) (hi : (cacheGet s.ps_bytecode_cache u).m_initialized = true) :
    HandlePSUIDChange s u c t =
      if t then { s with s_last_pixel_shader_bytecode := some u } else s := by
  have hidx := cacheIndex_snd_of_initialized s.ps_bytecode_cache u hi
  simp only [HandlePSUIDChange, cacheIndex_fst, hi, if_true, hidx]

/-- Fresh-entry case of `HandlePSUIDChange`. -/
theorem handlePS_of_fresh (s : ShaderCacheState) (u : PixelShaderUid) (c : String)
    (t : Bool) (hi : (cacheGet s.ps_bytecode_cache u).m_initialized = false) :
    HandlePSUIDChange s u c t =
      { s with
        ps_bytecode_cache :=
          cacheUpdate (cacheIndex s.ps_bytecode_cache u).2 u
            (fun e => { e with m_initialized := true }),
        s_last_pixel_shader_bytecode :=
          if t then some u else s.s_last_pixel_shader_bytecode,
        pending := s.pending ++ [{ wuid := UnitUid.ps u, code := c }],
        dispatch_log := s.dispatch_log ++ [{ wuid := UnitUid.ps u, code := c }] } := by
  cases t <;>
    simp [HandlePSUIDChange, hi, cacheIndex_fst, CompileShaderAsync]

/-- Already-initialized case of `HandleVSUIDChange`. -/
theorem handleVS_of_init (s : ShaderCacheState) (u : VertexShaderUid) (c : String)
    (t : Bool) (hi : (cacheGet s.vs_bytecode_cache u).m_initialized = true) :
    HandleVSUIDChange s u c t =
      if t then { s with s_last_vertex_shader_bytecode := some u } else s := by
  have hidx := cacheIndex_snd_of_initialized s.vs_bytecode_cache u hi
  simp only [HandleVSUIDChange, cacheIndex_fst, hi, if_true, hidx]

/-- Fresh-entry case of `HandleVSUIDChange`. -/
theorem handleVS_of_fresh (s : ShaderCacheState) (u : VertexShaderUid) (c : String)
    (t : Bool) (hi : (cacheGet s.vs_bytecode_cache u).m_initialized = false) :
    HandleVSUIDChange s u c t =
      { s with
        vs_bytecode_cache :=
          cacheUpdate (cacheIndex s.vs_bytecode_cache u).2 u
            (fun e => { e with m_initialized := true }),
        s_last_vertex_shader_bytecode :=
          if t then some u else s.s_last_vertex_shader_bytecode,
        pending := s.pending ++ [{ wuid := UnitUid.vs u, code := c }],
        dispatch_log := s.dispatch_log ++ [{ wuid := UnitUid.vs u, code := c }] } := by
  cases t <;>
    simp [HandleVSUIDChange, hi, cacheIndex_fst, CompileShaderAsync]

/-- Unfolding `runHandlers` over a cons. -/
theorem runHandlers_cons (s : ShaderCacheState)
    (finished : ShaderCompilerWorkUnit → Option CompileResult)
    (w : ShaderCompilerWorkUnit) (ws : List ShaderCompilerWorkUnit) :
    runHandlers s finished (w :: ws) =
      runHandlers
        (match finished w with
         | some r => ResultHandler s w r
         | none => s) finished ws := rfl


/-- A result handler leaves `dispatch_log` alone. -/
theorem resultHandler_dispatch_log (s : ShaderCacheState) (w : ShaderCompilerWorkUnit)
    (r : CompileResult) : (ResultHandler s w r).dispatch_log = s.dispatch_log := by
  obtain ⟨wu, wc⟩ := w
  cases wu <;> cases r <;> simp [ResultHandler]

/-- Draining handlers leaves `dispatch_log` alone. -/
theorem runHandlers_dispatch_log (finished : ShaderCompilerWorkUnit → Option CompileResult)
    (l : List ShaderCompilerWorkUnit) :
    ∀ s : ShaderCacheState, (runHandlers s finished l).dispatch_log = s.dispatch_log := by
  induction l with
  | nil => intro s; rfl
  | cons w ws ih =>
    intro s
    rw [runHandlers_cons, ih]
    cases hfw : finished w <;> simp [resultHandler_dispatch_log]

/-- `ProcCompilationResults` leaves `dispatch_log` alone. -/
theorem proc_dispatch_log (s : ShaderCacheState)
    (finished : ShaderCompilerWorkUnit → Option CompileResult) :
    (ProcCompilationResults s finished).dispatch_log = s.dispatch_log := by
  unfold ProcCompilationResults
  rw [runHandlers_dispatch_log]


/-- A result handler leaves `s_last_geometry_shader_bytecode` alone. -/
theorem resultHandler_s_last_geometry_shader_bytecode (s : ShaderCacheState) (w : ShaderCompilerWorkUnit)
    (r : CompileResult) : (ResultHandler s w r).s_last_geometry_shader_bytecode = s.s_last_geometry_shader_bytecode := by
  obtain ⟨wu, wc⟩ := w
  cases wu <;> cases r <;> simp [ResultHandler]

/-- Draining handlers leaves `s_last_geometry_shader_bytecode` alone. -/
theorem runHandlers_s_last_geometry_shader_bytecode (finished : ShaderCompilerWorkUnit → Option CompileResult)
    (l : List ShaderCompilerWorkUnit) :
    ∀ s : ShaderCacheState, (runHandlers s finished l).s_last_geometry_shader_bytecode = s.s_last_geometry_shader_bytecode := by
  induction l with
  | nil => intro s; rfl
  | cons w ws ih =>
    intro s
    rw [runHandlers_cons, ih]
    cases hfw : finished w <;> simp [resultHandler_s_last_geometry_shader_bytecode]

/-- `ProcCompilationResults` leaves `s_last_geometry_shader_bytecode` alone. -/
theorem proc_s_last_geometry_shader_bytecode (s : ShaderCacheState)
    (finished : ShaderCompilerWorkUnit → Option CompileResult) :
    (ProcCompilationResults s finished).s_last_geometry_shader_bytecode = s.s_last_geometry_shader_bytecode := by
  unfold ProcCompilationResults
  rw [runHandlers_s_last_geometry_shader_bytecode]


/-- A result handler leaves `s_last_pixel_shader_bytecode` alone. -/
theorem resultHandler_s_last_pixel_shader_bytecode (s : ShaderCacheState) (w : ShaderCompilerWorkUnit)
    (r : CompileResult) : (ResultHandler s w r).s_last_pixel_shader_bytecode = s.s_last_pixel_shader_bytecode := by
  obtain ⟨wu, wc⟩ := w
  cases wu <;> cases r <;> simp [ResultHandler]

/-- Draining handlers leaves `s_last_pixel_shader_bytecode` alone. -/
theorem runHandlers_s_last_pixel_shader_bytecode (finished : ShaderCompilerWorkUnit → Option CompileResult)
    (l : List ShaderCompilerWorkUnit) :
    ∀ s : ShaderCacheState, (runHandlers s finished l).s_last_pixel_shader_bytecode = s.s_last_pixel_shader_bytecode := by
  induction l with
  | nil => intro s; rfl
  | cons w ws ih =>
    intro s
    rw [runHandlers_cons, ih]
    cases hfw : finished w <;> simp [resultHandler_s_last_pixel_shader_bytecode]

/-- `ProcCompilationResults` leaves `s_last_pixel_shader_bytecode` alone. -/
theorem proc_s_last_pixel_shader_bytecode (s : ShaderCacheState)
    (finished : ShaderCompilerWorkUnit → Option CompileResult) :
    (ProcCompilationResults s finished).s_last_pixel_shader_bytecode = s.s_last_pixel_shader_bytecode := by
  unfold ProcCompilationResults
  rw [runHandlers_s_last_pixel_shader_bytecode]


/-- A result handler leaves `s_last_vertex_shader_bytecode` alone. -/
theorem resultHandler_s_last_vertex_shader_bytecode (s : ShaderCacheState) (w : ShaderCompilerWorkUnit)
    (r : CompileResult) : (ResultHandler s w r).s_last_vertex_shader_bytecode = s.s_last_vertex_shader_bytecode := by
  obtain ⟨wu, wc⟩ := w
  cases wu <;> cases r <;> simp [ResultHandler]

/-- Draining handlers leaves `s_last_vertex_shader_bytecode` alone. -/
theorem runHandlers_s_last_vertex_shader_bytecode (finished : ShaderCompilerWorkUnit → Option CompileResult)
    (l : List ShaderCompilerWorkUnit) :
    ∀ s : ShaderCacheState, (runHandlers s finished l).s_last_vertex_shader_bytecode = s.s_last_vertex_shader_bytecode := by
  induction l with
  | nil => intro s; rfl
  | cons w ws ih =>
    intro s
    rw [runHandlers_cons, ih]
    cases hfw : finished w <;> simp [resultHandler_s_last_vertex_shader_bytecode]

/-- `ProcCompilationResults` leaves `s_last_vertex_shader_bytecode` alone. -/
theorem proc_s_last_vertex_shader_bytecode (s : ShaderCacheState)
    (finished : ShaderCompilerWorkUnit → Option CompileResult) :
    (ProcCompilationResults s finished).s_last_vertex_shader_bytecode = s.s_last_vertex_shader_bytecode := by
  unfold ProcCompilationResults
  rw [runHandlers_s_last_vertex_shader_bytecode]


/-- A result handler leaves `s_last_geometry_shader_uid` alone. -/
theorem resultHandler_s_last_geometry_shader_uid (s : ShaderCacheState) (w : ShaderCompilerWorkUnit)
    (r : CompileResult) : (ResultHandler s w r).s_last_geometry_shader_uid = s.s_last_geometry_shader_uid := by
  obtain ⟨wu, wc⟩ := w
  cases wu <;> cases r <;> simp [ResultHandler]

/-- Draining handlers leaves `s_last_geometry_shader_uid` alone. -/
theorem runHandlers_s_last_geometry_shader_uid (finished : ShaderCompilerWorkUnit → Option CompileResult)
    (l : List ShaderCompilerWorkUnit) :
    ∀ s : ShaderCacheState, (runHandlers s finished l).s_last_geometry_shader_uid = s.s_last_geometry_shader_uid := by
  induction l with
  | nil => intro s; rfl
  | cons w ws ih =>
    intro s
    rw [runHandlers_cons, ih]
    cases hfw : finished w <;> simp [resultHandler_s_last_geometry_shader_uid]

/-- `ProcCompilationResults` leaves `s_last_geometry_shader_uid` alone. -/
theorem proc_s_last_geometry_shader_uid (s : ShaderCacheState)
    (finished : ShaderCompilerWorkUnit → Option CompileResult) :
    (ProcCompilationResults s finished).s_last_geometry_shader_uid = s.s_last_geometry_shader_uid := by
  unfold ProcCompilationResults
  rw [runHandlers_s_last_geometry_shader_uid]


/-- A result handler leaves `s_last_pixel_shader_uid` alone. -/
theorem resultHandler_s_last_pixel_shader_uid (s : ShaderCacheState) (w : ShaderCompilerWorkUnit)
    (r : CompileResult) : (ResultHandler s w r).s_last_pixel_shader_uid = s.s_last_pixel_shader_uid := by
  obtain ⟨wu, wc⟩ := w
  cases wu <;> cases r <;> simp [ResultHandler]

/-- Draining handlers leaves `s_last_pixel_shader_uid` alone. -/
theorem runHandlers_s_last_pixel_shader_uid (finished : ShaderCompilerWorkUnit → Option CompileResult)
    (l : List ShaderCompilerWorkUnit) :
    ∀ s : ShaderCacheState, (runHandlers s finished l).s_last_pixel_shader_uid = s.s_last_pixel_shader_uid := by
  induction l with
  | nil => intro s; rfl
  | cons w ws ih =>
    intro s
    rw [runHandlers_cons, ih]
    cases hfw : finished w <;> simp [resultHandler_s_last_pixel_shader_uid]

/-- `ProcCompilationResults` leaves `s_last_pixel_shader_uid` alone. -/
theorem proc_s_last_pixel_shader_uid (s : ShaderCacheState)
    (finished : ShaderCompilerWorkUnit → Option CompileResult) :
    (ProcCompilationResults s finished).s_last_pixel_shader_uid = s.s_last_pixel_shader_uid := by
  unfold ProcCompilationResults
  rw [runHandlers_s_last_pixel_shader_uid]


/-- A result handler leaves `s_last_vertex_shader_uid` alone. -/
theorem resultHandler_s_last_vertex_shader_uid (s : ShaderCacheState) (w : ShaderCompilerWorkUnit)
    (r : CompileResult) : (ResultHandler s w r).s_last_vertex_shader_uid = s.s_last_vertex_shader_uid := by
  obtain ⟨wu, wc⟩ := w
  cases wu <;> cases r <;> simp [ResultHandler]

/-- Draining handlers leaves `s_last_vertex_shader_uid` alone. -/
theorem runHandlers_s_last_vertex_shader_uid (finished : ShaderCompilerWorkUnit → Option CompileResult)
    (l : List ShaderCompilerWorkUnit) :
    ∀ s : ShaderCacheState, (runHandlers s finished l).s_last_vertex_shader_uid = s.s_last_vertex_shader_uid := by
  induction l with
  | nil => intro s; rfl
  | cons w ws ih =>
    intro s
    rw [runHandlers_cons, ih]
    cases hfw : finished w <;> simp [resultHandler_s_last_vertex_shader_uid]

/-- `ProcCompilationResults` leaves `s_last_vertex_shader_uid` alone. -/
theorem proc_s_last_vertex_shader_uid (s : ShaderCacheState)
    (finished : ShaderCompilerWorkUnit → Option CompileResult) :
    (ProcCompilationResults s finished).s_last_vertex_shader_uid = s.s_last_vertex_shader_uid := by
  unfold ProcCompilationResults
  rw [runHandlers_s_last_vertex_shader_uid]


/-- A result handler leaves `s_last_cpu_geometry_shader_uid` alone. -/
theorem resultHandler_s_last_cpu_geometry_shader_uid (s : ShaderCacheState) (w : ShaderCompilerWorkUnit)
    (r : CompileResult) : (ResultHandler s w r).s_last_cpu_geometry_shader_uid = s.s_last_cpu_geometry_shader_uid := by
  obtain ⟨wu, wc⟩ := w
  cases wu <;> cases r <;> simp [ResultHandler]

/-- Draining handlers leaves `s_last_cpu_geometry_shader_uid` alone. -/
theorem runHandlers_s_last_cpu_geometry_shader_uid (finished : ShaderCompilerWorkUnit → Option CompileResult)
    (l : List ShaderCompilerWorkUnit) :
    ∀ s : ShaderCacheState, (runHandlers s finished l).s_last_cpu_geometry_shader_uid = s.s_last_cpu_geometry_shader_uid := by
  induction l with
  | nil => intro s; rfl
  | cons w ws ih =>
    intro s
    rw [runHandlers_cons, ih]
    cases hfw : finished w <;> simp [resultHandler_s_last_cpu_geometry_shader_uid]

/-- `ProcCompilationResults` leaves `s_last_cpu_geometry_shader_uid` alone. -/
theorem proc_s_last_cpu_geometry_shader_uid (s : ShaderCacheState)
    (finished : ShaderCompilerWorkUnit → Option CompileResult) :
    (ProcCompilationResults s finished).s_last_cpu_geometry_shader_uid = s.s_last_cpu_geometry_shader_uid := by
  unfold ProcCompilationResults
  rw [runHandlers_s_last_cpu_geometry_shader_uid]


/-- A result handler leaves `s_last_cpu_pixel_shader_uid` alone. -/
theorem resultHandler_s_last_cpu_pixel_shader_uid (s : ShaderCacheState) (w : ShaderCompilerWorkUnit)
    (r : CompileResult) : (ResultHandler s w r).s_last_cpu_pixel_shader_uid = s.s_last_cpu_pixel_shader_uid := by
  obtain ⟨wu, wc⟩ := w
  cases wu <;> cases r <;> simp [ResultHandler]

/-- Draining handlers leaves `s_last_cpu_pixel_shader_uid` alone. -/
theorem runHandlers_s_last_cpu_pixel_shader_uid (finished : ShaderCompilerWorkUnit → Option CompileResult)
    (l : List ShaderCompilerWorkUnit) :
    ∀ s : ShaderCacheState, (runHandlers s finished l).s_last_cpu_pixel_shader_uid = s.s_last_cpu_pixel_shader_uid := by
  induction l with
  | nil => intro s; rfl
  | cons w ws ih =>
    intro s
    rw [runHandlers_cons, ih]
    cases hfw : finished w <;> simp [resultHandler_s_last_cpu_pixel_shader_uid]

/-- `ProcCompilationResults` leaves `s_last_cpu_pixel_shader_uid` alone. -/
theorem proc_s_last_cpu_pixel_shader_uid (s : ShaderCacheState)
    (finished : ShaderCompilerWorkUnit → Option CompileResult) :
    (ProcCompilationResults s finished).s_last_cpu_pixel_shader_uid = s.s_last_cpu_pixel_shader_uid := by
  unfold ProcCompilationResults
  rw [runHandlers_s_last_cpu_pixel_shader_uid]


/-- A result handler leaves `s_last_cpu_vertex_shader_uid` alone. -/
theorem resultHandler_s_last_cpu_vertex_shader_uid (s : ShaderCacheState) (w : ShaderCompilerWorkUnit)
    (r : CompileResult) : (ResultHandler s w r).s_last_cpu_vertex_shader_uid = s.s_last_cpu_vertex_shader_uid := by
  obtain ⟨wu, wc⟩ := w
  cases wu <;> cases r <;> simp [ResultHandler]

/-- Draining handlers leaves `s_last_cpu_vertex_shader_uid` alone. -/
theorem runHandlers_s_last_cpu_vertex_shader_uid (finished : ShaderCompilerWorkUnit → Option CompileResult)
    (l : List ShaderCompilerWorkUnit) :
    ∀ s : ShaderCacheState, (runHandlers s finished l).s_last_cpu_vertex_shader_uid = s.s_last_cpu_vertex_shader_uid := by
  induction l with
  | nil => intro s; rfl
  | cons w ws ih =>
    intro s
    rw [runHandlers_cons, ih]
    cases hfw : finished w <;> simp [resultHandler_s_last_cpu_vertex_shader_uid]

/-- `ProcCompilationResults` leaves `s_last_cpu_vertex_shader_uid` alone. -/
theorem proc_s_last_cpu_vertex_shader_uid (s : ShaderCacheState)
    (finished : ShaderCompilerWorkUnit → Option CompileResult) :
    (ProcCompilationResults s finished).s_last_cpu_vertex_shader_uid = s.s_last_cpu_vertex_shader_uid := by
  unfold ProcCompilationResults
  rw [runHandlers_s_last_cpu_vertex_shader_uid]


/-- A result handler leaves `m_dirty_pso` alone. -/
theorem resultHandler_m_dirty_pso (s : ShaderCacheState) (w : ShaderCompilerWorkUnit)
    (r : CompileResult) : (ResultHandler s w r).m_dirty_pso = s.m_dirty_pso := by
  obtain ⟨wu, wc⟩ := w
  cases wu <;> cases r <;> simp [ResultHandler]

/-- Draining handlers leaves `m_dirty_pso` alone. -/
theorem runHandlers_m_dirty_pso (finished : ShaderCompilerWorkUnit → Option CompileResult)
    (l : List ShaderCompilerWorkUnit) :
    ∀ s : ShaderCacheState, (runHandlers s finished l).m_dirty_pso = s.m_dirty_pso := by
  induction l with
  | nil => intro s; rfl
  | cons w ws ih =>
    intro s
    rw [runHandlers_cons, ih]
    cases hfw : finished w <;> simp [resultHandler_m_dirty_pso]

/-- `ProcCompilationResults` leaves `m_dirty_pso` alone. -/
theorem proc_m_dirty_pso (s : ShaderCacheState)
    (finished : ShaderCompilerWorkUnit → Option CompileResult) :
    (ProcCompilationResults s finished).m_dirty_pso = s.m_dirty_pso := by
  unfold ProcCompilationResults
  rw [runHandlers_m_dirty_pso]


/-- A result handler leaves `s_current_primitive_topology` alone. -/
theorem resultHandler_s_current_primitive_topology (s : ShaderCacheState) (w : ShaderCompilerWorkUnit)
    (r : CompileResult) : (ResultHandler s w r).s_current_primitive_topology = s.s_current_primitive_topology := by
  obtain ⟨wu, wc⟩ := w
  cases wu <;> cases r <;> simp [ResultHandler]

/-- Draining handlers leaves `s_current_primitive_topology` alone. -/
theorem runHandlers_s_current_primitive_topology (finished : ShaderCompilerWorkUnit → Option CompileResult)
    (l : List ShaderCompilerWorkUnit) :
    ∀ s : ShaderCacheState, (runHandlers s finished l).s_current_primitive_topology = s.s_current_primitive_topology := by
  induction l with
  | nil => intro s; rfl
  | cons w ws ih =>
    intro s
    rw [runHandlers_cons, ih]
    cases hfw : finished w <;> simp [resultHandler_s_current_primitive_topology]

/-- `ProcCompilationResults` leaves `s_current_primitive_topology` alone. -/
theorem proc_s_current_primitive_topology (s : ShaderCacheState)
    (finished : ShaderCompilerWorkUnit → Option CompileResult) :
    (ProcCompilationResults s finished).s_current_primitive_topology = s.s_current_primitive_topology := by
  unfold ProcCompilationResults
  rw [runHandlers_s_current_primitive_topology]


/-- A result handler leaves `s_pass_entry` alone. -/
theorem resultHandler_s_pass_entry (s : ShaderCacheState) (w : ShaderCompilerWorkUnit)
    (r : CompileResult) : (ResultHandler s w r).s_pass_entry = s.s_pass_entry := by
  obtain ⟨wu, wc⟩ := w
  cases wu <;> cases r <;> simp [ResultHandler]

/-- Draining handlers leaves `s_pass_entry` alone. -/
theorem runHandlers_s_pass_entry (finished : ShaderCompilerWorkUnit → Option CompileResult)
    (l : List ShaderCompilerWorkUnit) :
    ∀ s : ShaderCacheState, (runHandlers s finished l).s_pass_entry = s.s_pass_entry := by
  induction l with
  | nil => intro s; rfl
  | cons w ws ih =>
    intro s
    rw [runHandlers_cons, ih]
    cases hfw : finished w <;> simp [resultHandler_s_pass_entry]

/-- `ProcCompilationResults` leaves `s_pass_entry` alone. -/
theorem proc_s_pass_entry (s : ShaderCacheState)
    (finished : ShaderCompilerWorkUnit → Option CompileResult) :
    (ProcCompilationResults s finished).s_pass_entry = s.s_pass_entry := by
  unfold ProcCompilationResults
  rw [runHandlers_s_pass_entry]


/-- A result handler can update entries but never changes the `gs` key set. -/
theorem resultHandler_keys_gs (s : ShaderCacheState) (w : ShaderCompilerWorkUnit)
    (r : CompileResult) :
    cacheKeys (ResultHandler s w r).gs_bytecode_cache = cacheKeys s.gs_bytecode_cache := by
  obtain ⟨wu, wc⟩ := w
  cases wu <;> cases r <;> simp [ResultHandler, cacheKeys_cacheUpdate]

/-- Draining handlers never changes the `gs` key set. -/
theorem runHandlers_keys_gs (finished : ShaderCompilerWorkUnit → Option CompileResult)
    (l : List ShaderCompilerWorkUnit) :
    ∀ s : ShaderCacheState,
      cacheKeys (runHandlers s finished l).gs_bytecode_cache = cacheKeys s.gs_bytecode_cache := by
  induction l with
  | nil => intro s; rfl
  | cons w ws ih =>
    intro s
    rw [runHandlers_cons, ih]
    cases hfw : finished w <;> simp [resultHandler_keys_gs]

/-- `ProcCompilationResults` never changes the `gs` key set. -/
theorem proc_keys_gs (s : ShaderCacheState)
    (finished : ShaderCompilerWorkUnit → Option CompileResult) :
    cacheKeys (ProcCompilationResults s finished).gs_bytecode_cache
      = cacheKeys s.gs_bytecode_cache := by
  unfold ProcCompilationResults
  rw [runHandlers_keys_gs]


/-- A result handler can update entries but never changes the `ps` key set. -/
theorem resultHandler_keys_ps (s : ShaderCacheState) (w : ShaderCompilerWorkUnit)
    (r : CompileResult) :
    cacheKeys (ResultHandler s w r).ps_bytecode_cache = cacheKeys s.ps_bytecode_cache := by
  obtain ⟨wu, wc⟩ := w
  cases wu <;> cases r <;> simp [ResultHandler, cacheKeys_cacheUpdate]

/-- Draining handlers never changes the `ps` key set. -/
theorem runHandlers_keys_ps (finished : ShaderCompilerWorkUnit → Option CompileResult)
    (l : List ShaderCompilerWorkUnit) :
    ∀ s : ShaderCacheState,
      cacheKeys (runHandlers s finished l).ps_bytecode_cache = cacheKeys s.ps_bytecode_cache := by
  induction l with
  | nil => intro s; rfl
  | cons w ws ih =>
    intro s
    rw [runHandlers_cons, ih]
    cases hfw : finished w <;> simp [resultHandler_keys_ps]

/-- `ProcCompilationResults` never changes the `ps` key set. -/
theorem proc_keys_ps (s : ShaderCacheState)
    (finished : ShaderCompilerWorkUnit → Option CompileResult) :
    cacheKeys (ProcCompilationResults s finished).ps_bytecode_cache
      = cacheKeys s.ps_bytecode_cache := by
  unfold ProcCompilationResults
  rw [runHandlers_keys_ps]


/-- A result handler can update entries but never changes the `vs` key set. -/
theorem resultHandler_keys_vs (s : ShaderCacheState) (w : ShaderCompilerWorkUnit)
    (r : CompileResult) :
    cacheKeys (ResultHandler s w r).vs_bytecode_cache = cacheKeys s.vs_bytecode_cache := by
  obtain ⟨wu, wc⟩ := w
  cases wu <;> cases r <;> simp [ResultHandler, cacheKeys_cacheUpdate]

/-- Draining handlers never changes the `vs` key set. -/
theorem runHandlers_keys_vs (finished : ShaderCompilerWorkUnit → Option CompileResult)
    (l : List ShaderCompilerWorkUnit) :
    ∀ s : ShaderCacheState,
      cacheKeys (runHandlers s finished l).vs_bytecode_cache = cacheKeys s.vs_bytecode_cache := by
  induction l with
  | nil => intro s; rfl
  | cons w ws ih =>
    intro s
    rw [runHandlers_cons, ih]
    cases hfw : finished w <;> simp [resultHandler_keys_vs]

/-- `ProcCompilationResults` never changes the `vs` key set. -/
theorem proc_keys_vs (s : ShaderCacheState)
    (finished : ShaderCompilerWorkUnit → Option CompileResult) :
    cacheKeys (ProcCompilationResults s finished).vs_bytecode_cache
      = cacheKeys s.vs_bytecode_cache := by
  unfold ProcCompilationResults
  rw [runHandlers_keys_vs]

/-- Setting the topology leaves `gs_bytecode_cache` alone. -/
theorem setTopo_gs_bytecode_cache (s : ShaderCacheState) (p : Nat) :
    (SetCurrentPrimitiveTopology s p).gs_bytecode_cache = s.gs_bytecode_cache := by
  unfold SetCurrentPrimitiveTopology
  split_ifs <;> rfl


/-- Setting the topology leaves `ps_bytecode_cache` alone. -/
theorem setTopo_ps_bytecode_cache (s : ShaderCacheState) (p : Nat) :
    (SetCurrentPrimitiveTopology s p).ps_bytecode_cache = s.ps_bytecode_cache := by
  unfold SetCurrentPrimitiveTopology
  split_ifs <;> rfl


/-- Setting the topology leaves `vs_bytecode_cache` alone. -/
theorem setTopo_vs_bytecode_cache (s : ShaderCacheState) (p : Nat) :
    (SetCurrentPrimitiveTopology s p).vs_bytecode_cache = s.vs_bytecode_cache := by
  unfold SetCurrentPrimitiveTopology
  split_ifs <;> rfl


/-- Setting the topology leaves `s_last_geometry_shader_bytecode` alone. -/
theorem setTopo_s_last_geometry_shader_bytecode (s : ShaderCacheState) (p : Nat) :
    (SetCurrentPrimitiveTopology s p).s_last_geometry_shader_bytecode = s.s_last_geometry_shader_bytecode := by
  unfold SetCurrentPrimitiveTopology
  split_ifs <;> rfl


/-- Setting the topology leaves `s_last_pixel_shader_bytecode` alone. -/
theorem setTopo_s_last_pixel_shader_bytecode (s : ShaderCacheState) (p : Nat) :
    (SetCurrentPrimitiveTopology s p).s_last_pixel_shader_bytecode = s.s_last_pixel_shader_bytecode := by
  unfold SetCurrentPrimitiveTopology
  split_ifs <;> rfl


/-- Setting the topology leaves `s_last_vertex_shader_bytecode` alone. -/
theorem setTopo_s_last_vertex_shader_bytecode (s : ShaderCacheState) (p : Nat) :
    (SetCurrentPrimitiveTopology s p).s_last_vertex_shader_bytecode = s.s_last_vertex_shader_bytecode := by
  unfold SetCurrentPrimitiveTopology
  split_ifs <;> rfl


/-- Setting the topology leaves `s_last_geometry_shader_uid` alone. -/
theorem setTopo_s_last_geometry_shader_uid (s : ShaderCacheState) (p : Nat) :
    (SetCurrentPrimitiveTopology s p).s_last_geometry_shader_uid = s.s_last_geometry_shader_uid := by
  unfold SetCurrentPrimitiveTopology
  split_ifs <;> rfl


/-- Setting the topology leaves `s_last_pixel_shader_uid` alone. -/
theorem setTopo_s_last_pixel_shader_uid (s : ShaderCacheState) (p : Nat) :
    (SetCurrentPrimitiveTopology s p).s_last_pixel_shader_uid = s.s_last_pixel_shader_uid := by
  unfold SetCurrentPrimitiveTopology
  split_ifs <;> rfl


/-- Setting the topology leaves `s_last_vertex_shader_uid` alone. -/
theorem setTopo_s_last_vertex_shader_uid (s : ShaderCacheState) (p : Nat) :
    (SetCurrentPrimitiveTopology s p).s_last_vertex_shader_uid = s.s_last_vertex_shader_uid := by
  unfold SetCurrentPrimitiveTopology
  split_ifs <;> rfl


/-- Setting the topology leaves `s_last_cpu_geometry_shader_uid` alone. -/
theorem setTopo_s_last_cpu_geometry_shader_uid (s : ShaderCacheState) (p : Nat) :
    (SetCurrentPrimitiveTopology s p).s_last_cpu_geometry_shader_uid = s.s_last_cpu_geometry_shader_uid := by
  unfold SetCurrentPrimitiveTopology
  split_ifs <;> rfl


/-- Setting the topology leaves `s_last_cpu_pixel_shader_uid` alone. -/
theorem setTopo_s_last_cpu_pixel_shader_uid (s : ShaderCacheState) (p : Nat) :
    (SetCurrentPrimitiveTopology s p).s_last_cpu_pixel_shader_uid = s.s_last_cpu_pixel_shader_uid := by
  unfold SetCurrentPrimitiveTopology
  split_ifs <;> rfl


/-- Setting the topology leaves `s_last_cpu_vertex_shader_uid` alone. -/
theorem setTopo_s_last_cpu_vertex_shader_uid (s : ShaderCacheState) (p : Nat) :
    (SetCurrentPrimitiveTopology s p).s_last_cpu_vertex_shader_uid = s.s_last_cpu_vertex_shader_uid := by
  unfold SetCurrentPrimitiveTopology
  split_ifs <;> rfl


/-- Setting the topology leaves `m_dirty_pso` alone. -/
theorem setTopo_m_dirty_pso (s : ShaderCacheState) (p : Nat) :
    (SetCurrentPrimitiveTopology s p).m_dirty_pso = s.m_dirty_pso := by
  unfold SetCurrentPrimitiveTopology
  split_ifs <;> rfl


/-- Setting the topology leaves `dispatch_log` alone. -/
theorem setTopo_dispatch_log (s : ShaderCacheState) (p : Nat) :
    (SetCurrentPrimitiveTopology s p).dispatch_log = s.dispatch_log := by
  unfold SetCurrentPrimitiveTopology
  split_ifs <;> rfl


/-- Setting the topology leaves `pending` alone. -/
theorem setTopo_pending (s : ShaderCacheState) (p : Nat) :
    (SetCurrentPrimitiveTopology s p).pending = s.pending := by
  unfold SetCurrentPrimitiveTopology
  split_ifs <;> rfl


/-- Setting the topology leaves `s_pass_entry` alone. -/
theorem setTopo_s_pass_entry (s : ShaderCacheState) (p : Nat) :
    (SetCurrentPrimitiveTopology s p).s_pass_entry = s.s_pass_entry := by
  unfold SetCurrentPrimitiveTopology
  split_ifs <;> rfl


/-- `HandleGSUIDChange` leaves `ps_bytecode_cache` alone. -/
theorem handleGS_pres_ps_bytecode_cache (s : ShaderCacheState) (u : GeometryShaderUid) (c : String)
    (t : Bool) : (HandleGSUIDChange s u c t).ps_bytecode_cache = s.ps_bytecode_cache := by
  by_cases hp : u.passthrough = true
  · rw [handleGS_of_pass s u c t hp]
  · have hp2 : u.passthrough = false := by simpa using hp
    by_cases hi : (cacheGet s.gs_bytecode_cache u).m_initialized = true
    · rw [handleGS_of_init s u c t hp2 hi]
      cases t <;> rfl
    · have hi2 : (cacheGet s.gs_bytecode_cache u).m_initialized = false := by simpa using hi
      rw [handleGS_of_fresh s u c t hp2 hi2]


/-- `HandleGSUIDChange` leaves `vs_bytecode_cache` alone. -/
theorem handleGS_pres_vs_bytecode_cache (s : ShaderCacheState) (u : GeometryShaderUid) (c : String)
    (t : Bool) : (HandleGSUIDChange s u c t).vs_bytecode_cache = s.vs_bytecode_cache := by
  by_cases hp : u.passthrough = true
  · rw [handleGS_of_pass s u c t hp]
  · have hp2 : u.passthrough = false := by simpa using hp
    by_cases hi : (cacheGet s.gs_bytecode_cache u).m_initialized = true
    · rw [handleGS_of_init s u c t hp2 hi]
      cases t <;> rfl
    · have hi2 : (cacheGet s.gs_bytecode_cache u).m_initialized = false := by simpa using hi
      rw [handleGS_of_fresh s u c t hp2 hi2]


/-- `HandleGSUIDChange` leaves `s_last_pixel_shader_bytecode` alone. -/
theorem handleGS_pres_s_last_pixel_shader_bytecode (s : ShaderCacheState) (u : GeometryShaderUid) (c : String)
    (t : Bool) : (HandleGSUIDChange s u c t).s_last_pixel_shader_bytecode = s.s_last_pixel_shader_bytecode := by
  by_cases hp : u.passthrough = true
  · rw [handleGS_of_pass s u c t hp]
  · have hp2 : u.passthrough = false := by simpa using hp
    by_cases hi : (cacheGet s.gs_bytecode_cache u).m_initialized = true
    · rw [handleGS_of_init s u c t hp2 hi]
      cases t <;> rfl
    · have hi2 : (cacheGet s.gs_bytecode_cache u).m_initialized = false := by simpa using hi
      rw [handleGS_of_fresh s u c t hp2 hi2]


/-- `HandleGSUIDChange` leaves `s_last_vertex_shader_bytecode` alone. -/
theorem handleGS_pres_s_last_vertex_shader_bytecode (s : ShaderCacheState) (u : GeometryShaderUid) (c : String)
    (t : Bool) : (HandleGSUIDChange s u c t).s_last_vertex_shader_bytecode = s.s_last_vertex_shader_bytecode := by
  by_cases hp : u.passthrough = true
  · rw [handleGS_of_pass s u c t hp]
  · have hp2 : u.passthrough = false := by simpa using hp
    by_cases hi : (cacheGet s.gs_bytecode_cache u).m_initialized = true
    · rw [handleGS_of_init s u c t hp2 hi]
      cases t <;> rfl
    · have hi2 : (cacheGet s.gs_bytecode_cache u).m_initialized = false := by simpa using hi
      rw [handleGS_of_fresh s u c t hp2 hi2]


/-- `HandleGSUIDChange` leaves `s_last_geometry_shader_uid` alone. -/
theorem handleGS_pres_s_last_geometry_shader_uid (s : ShaderCacheState) (u : GeometryShaderUid) (c : String)
    (t : Bool) : (HandleGSUIDChange s u c t).s_last_geometry_shader_uid = s.s_last_geometry_shader_uid := by
  by_cases hp : u.passthrough = true
  · rw [handleGS_of_pass s u c t hp]
  · have hp2 : u.passthrough = false := by simpa using hp
    by_cases hi : (cacheGet s.gs_bytecode_cache u).m_initialized = true
    · rw [handleGS_of_init s u c t hp2 hi]
      cases t <;> rfl
    · have hi2 : (cacheGet s.gs_bytecode_cache u).m_initialized = false := by simpa using hi
      rw [handleGS_of_fresh s u c t hp2 hi2]


/-- `HandleGSUIDChange` leaves `s_last_pixel_shader_uid` alone. -/
theorem handleGS_pres_s_last_pixel_shader_uid (s : ShaderCacheState) (u : GeometryShaderUid) (c : String)
    (t : Bool) : (HandleGSUIDChange s u c t).s_last_pixel_shader_uid = s.s_last_pixel_shader_uid := by
  by_cases hp : u.passthrough = true
  · rw [handleGS_of_pass s u c t hp]
  · have hp2 : u.passthrough = false := by simpa using hp
    by_cases hi : (cacheGet s.gs_bytecode_cache u).m_initialized = true
    · rw [handleGS_of_init s u c t hp2 hi]
      cases t <;> rfl
    · have hi2 : (cacheGet s.gs_bytecode_cache u).m_initialized = false := by simpa using hi
      rw [handleGS_of_fresh s u c t hp2 hi2]


/-- `HandleGSUIDChange` leaves `s_last_vertex_shader_uid` alone. -/
theorem handleGS_pres_s_last_vertex_shader_uid (s : ShaderCacheState) (u : GeometryShaderUid) (c : String)
    (t : Bool) : (HandleGSUIDChange s u c t).s_last_vertex_shader_uid = s.s_last_vertex_shader_uid := by
  by_cases hp : u.passthrough = true
  · rw [handleGS_of_pass s u c t hp]
  · have hp2 : u.passthrough = false := by simpa using hp
    by_cases hi : (cacheGet s.gs_bytecode_cache u).m_initialized = true
    · rw [handleGS_of_init s u c t hp2 hi]
      cases t <;> rfl
    · have hi2 : (cacheGet s.gs_bytecode_cache u).m_initialized = false := by simpa using hi
      rw [handleGS_of_fresh s u c t hp2 hi2]


/-- `HandleGSUIDChange` leaves `s_last_cpu_geometry_shader_uid` alone. -/
theorem handleGS_pres_s_last_cpu_geometry_shader_uid (s : ShaderCacheState) (u : GeometryShaderUid) (c : String)
    (t : Bool) : (HandleGSUIDChange s u c t).s_last_cpu_geometry_shader_uid = s.s_last_cpu_geometry_shader_uid := by
  by_cases hp : u.passthrough = true
  · rw [handleGS_of_pass s u c t hp]
  · have hp2 : u.passthrough = false := by simpa using hp
    by_cases hi : (cacheGet s.gs_bytecode_cache u).m_initialized = true
    · rw [handleGS_of_init s u c t hp2 hi]
      cases t <;> rfl
    · have hi2 : (cacheGet s.gs_bytecode_cache u).m_initialized = false := by simpa using hi
      rw [handleGS_of_fresh s u c t hp2 hi2]


/-- `HandleGSUIDChange` leaves `s_last_cpu_pixel_shader_uid` alone. -/
theorem handleGS_pres_s_last_cpu_pixel_shader_uid (s : ShaderCacheState) (u : GeometryShaderUid) (c : String)
    (t : Bool) : (HandleGSUIDChange s u c t).s_last_cpu_pixel_shader_uid = s.s_last_cpu_pixel_shader_uid := by
  by_cases hp : u.passthrough = true
  · rw [handleGS_of_pass s u c t hp]
  · have hp2 : u.passthrough = false := by simpa using hp
    by_cases hi : (cacheGet s.gs_bytecode_cache u).m_initialized = true
    · rw [handleGS_of_init s u c t hp2 hi]
      cases t <;> rfl
    · have hi2 : (cacheGet s.gs_bytecode_cache u).m_initialized = false := by simpa using hi
      rw [handleGS_of_fresh s u c t hp2 hi2]


/-- `HandleGSUIDChange` leaves `s_last_cpu_vertex_shader_uid` alone. -/
theorem handleGS_pres_s_last_cpu_vertex_shader_uid (s : ShaderCacheState) (u : GeometryShaderUid) (c : String)
    (t : Bool) : (HandleGSUIDChange s u c t).s_last_cpu_vertex_shader_uid = s.s_last_cpu_vertex_shader_uid := by
  by_cases hp : u.passthrough = true
  · rw [handleGS_of_pass s u c t hp]
  · have hp2 : u.passthrough = false := by simpa using hp
    by_cases hi : (cacheGet s.gs_bytecode_cache u).m_initialized = true
    · rw [handleGS_of_init s u c t hp2 hi]
      cases t <;> rfl
    · have hi2 : (cacheGet s.gs_bytecode_cache u).m_initialized = false := by simpa using hi
      rw [handleGS_of_fresh s u c t hp2 hi2]


/-- `HandleGSUIDChange` leaves `m_dirty_pso` alone. -/
theorem handleGS_pres_m_dirty_pso (s : ShaderCacheState) (u : GeometryShaderUid) (c : String)
    (t : Bool) : (HandleGSUIDChange s u c t).m_dirty_pso = s.m_dirty_pso := by
  by_cases hp : u.passthrough = true
  · rw [handleGS_of_pass s u c t hp]
  · have hp2 : u.passthrough = false := by simpa using hp
    by_cases hi : (cacheGet s.gs_bytecode_cache u).m_initialized = true
    · rw [handleGS_of_init s u c t hp2 hi]
      cases t <;> rfl
    · have hi2 : (cacheGet s.gs_bytecode_cache u).m_initialized = false := by simpa using hi
      rw [handleGS_of_fresh s u c t hp2 hi2]


/-- `HandleGSUIDChange` leaves `s_current_primitive_topology` alone. -/
theorem handleGS_pres_s_current_primitive_topology (s : ShaderCacheState) (u : GeometryShaderUid) (c : String)
    (t : Bool) : (HandleGSUIDChange s u c t).s_current_primitive_topology = s.s_current_primitive_topology := by
  by_cases hp : u.passthrough = true
  · rw [handleGS_of_pass s u c t hp]
  · have hp2 : u.passthrough = false := by simpa using hp
    by_cases hi : (cacheGet s.gs_bytecode_cache u).m_initialized = true
    · rw [handleGS_of_init s u c t hp2 hi]
      cases t <;> rfl
    · have hi2 : (cacheGet s.gs_bytecode_cache u).m_initialized = false := by simpa using hi
      rw [handleGS_of_fresh s u c t hp2 hi2]


/-- `HandleGSUIDChange` leaves `s_pass_entry` alone. -/
theorem handleGS_pres_s_pass_entry (s : ShaderCacheState) (u : GeometryShaderUid) (c : String)
    (t : Bool) : (HandleGSUIDChange s u c t).s_pass_entry = s.s_pass_entry := by
  by_cases hp : u.passthrough = true
  · rw [handleGS_of_pass s u c t hp]
  · have hp2 : u.passthrough = false := by simpa using hp
    by_cases hi : (cacheGet s.gs_bytecode_cache u).m_initialized = true
    · rw [handleGS_of_init s u c t hp2 hi]
      cases t <;> rfl
    · have hi2 : (cacheGet s.gs_bytecode_cache u).m_initialized = false := by simpa using hi
      rw [handleGS_of_fresh s u c t hp2 hi2]


/-- `HandleGSUIDChange` leaves `s_gs_disk_cache` alone. -/
theorem handleGS_pres_s_gs_disk_cache (s : ShaderCacheState) (u : GeometryShaderUid) (c : String)
    (t : Bool) : (HandleGSUIDChange s u c t).s_gs_disk_cache = s.s_gs_disk_cache := by
  by_cases hp : u.passthrough = true
  · rw [handleGS_of_pass s u c t hp]
  · have hp2 : u.passthrough = false := by simpa using hp
    by_cases hi : (cacheGet s.gs_bytecode_cache u).m_initialized = true
    · rw [handleGS_of_init s u c t hp2 hi]
      cases t <;> rfl
    · have hi2 : (cacheGet s.gs_bytecode_cache u).m_initialized = false := by simpa using hi
      rw [handleGS_of_fresh s u c t hp2 hi2]


/-- `HandleGSUIDChange` leaves `s_ps_disk_cache` alone. -/
theorem handleGS_pres_s_ps_disk_cache (s : ShaderCacheState) (u : GeometryShaderUid) (c : String)
    (t : Bool) : (HandleGSUIDChange s u c t).s_ps_disk_cache = s.s_ps_disk_cache := by
  by_cases hp : u.passthrough = true
  · rw [handleGS_of_pass s u c t hp]
  · have hp2 : u.passthrough = false := by simpa using hp
    by_cases hi : (cacheGet s.gs_bytecode_cache u).m_initialized = true
    · rw [handleGS_of_init s u c t hp2 hi]
      cases t <;> rfl
    · have hi2 : (cacheGet s.gs_bytecode_cache u).m_initialized = false := by simpa using hi
      rw [handleGS_of_fresh s u c t hp2 hi2]


/-- `HandleGSUIDChange` leaves `s_vs_disk_cache` alone. -/
theorem handleGS_pres_s_vs_disk_cache (s : ShaderCacheState) (u : GeometryShaderUid) (c : String)
    (t : Bool) : (HandleGSUIDChange s u c t).s_vs_disk_cache = s.s_vs_disk_cache := by
  by_cases hp : u.passthrough = true
  · rw [handleGS_of_pass s u c t hp]
  · have hp2 : u.passthrough = false := by simpa using hp
    by_cases hi : (cacheGet s.gs_bytecode_cache u).m_initialized = true
    · rw [handleGS_of_init s u c t hp2 hi]
      cases t <;> rfl
    · have hi2 : (cacheGet s.gs_bytecode_cache u).m_initialized = false := by simpa using hi
      rw [handleGS_of_fresh s u c t hp2 hi2]


/-- `HandleGSUIDChange` leaves `dump_files` alone. -/
theorem handleGS_pres_dump_files (s : ShaderCacheState) (u : GeometryShaderUid) (c : String)
    (t : Bool) : (HandleGSUIDChange s u c t).dump_files = s.dump_files := by
  by_cases hp : u.passthrough = true
  · rw [handleGS_of_pass s u c t hp]
  · have hp2 : u.passthrough = false := by simpa using hp
    by_cases hi : (cacheGet s.gs_bytecode_cache u).m_initialized = true
    · rw [handleGS_of_init s u c t hp2 hi]
      cases t <;> rfl
    · have hi2 : (cacheGet s.gs_bytecode_cache u).m_initialized = false := by simpa using hi
      rw [handleGS_of_fresh s u c t hp2 hi2]


/-- `HandleGSUIDChange` leaves `alerts` alone. -/
theorem handleGS_pres_alerts (s : ShaderCacheState) (u : GeometryShaderUid) (c : String)
    (t : Bool) : (HandleGSUIDChange s u c t).alerts = s.alerts := by
  by_cases hp : u.passthrough = true
  · rw [handleGS_of_pass s u c t hp]
  · have hp2 : u.passthrough = false := by simpa using hp
    by_cases hi : (cacheGet s.gs_bytecode_cache u).m_initialized = true
    · rw [handleGS_of_init s u c t hp2 hi]
      cases t <;> rfl
    · have hi2 : (cacheGet s.gs_bytecode_cache u).m_initialized = false := by simpa using hi
      rw [handleGS_of_fresh s u c t hp2 hi2]


/-- `HandlePSUIDChange` leaves `gs_bytecode_cache` alone. -/
theorem handlePS_pres_gs_bytecode_cache (s : ShaderCacheState) (u : PixelShaderUid) (c : String)
    (t : Bool) : (HandlePSUIDChange s u c t).gs_bytecode_cache = s.gs_bytecode_cache := by
  by_cases hi : (cacheGet s.ps_bytecode_cache u).m_initialized = true
  · rw [handlePS_of_init s u c t hi]
    cases t <;> rfl
  · have hi2 : (cacheGet s.ps_bytecode_cache u).m_initialized = false := by simpa using hi
    rw [handlePS_of_fresh s u c t hi2]


/-- `HandlePSUIDChange` leaves `vs_bytecode_cache` alone. -/
theorem handlePS_pres_vs_bytecode_cache (s : ShaderCacheState) (u : PixelShaderUid) (c : String)
    (t : Bool) : (HandlePSUIDChange s u c t).vs_bytecode_cache = s.vs_bytecode_cache := by
  by_cases hi : (cacheGet s.ps_bytecode_cache u).m_initialized = true
  · rw [handlePS_of_init s u c t hi]
    cases t <;> rfl
  · have hi2 : (cacheGet s.ps_bytecode_cache u).m_initialized = false := by simpa using hi
    rw [handlePS_of_fresh s u c t hi2]


/-- `HandlePSUIDChange` leaves `s_last_geometry_shader_bytecode` alone. -/
theorem handlePS_pres_s_last_geometry_shader_bytecode (s : ShaderCacheState) (u : PixelShaderUid) (c : String)
    (t : Bool) : (HandlePSUIDChange s u c t).s_last_geometry_shader_bytecode = s.s_last_geometry_shader_bytecode := by
  by_cases hi : (cacheGet s.ps_bytecode_cache u).m_initialized = true
  · rw [handlePS_of_init s u c t hi]
    cases t <;> rfl
  · have hi2 : (cacheGet s.ps_bytecode_cache u).m_initialized = false := by simpa using hi
    rw [handlePS_of_fresh s u c t hi2]


/-- `HandlePSUIDChange` leaves `s_last_vertex_shader_bytecode` alone. -/
theorem handlePS_pres_s_last_vertex_shader_bytecode (s : ShaderCacheState) (u : PixelShaderUid) (c : String)
    (t : Bool) : (HandlePSUIDChange s u c t).s_last_vertex_shader_bytecode = s.s_last_vertex_shader_bytecode := by
  by_cases hi : (cacheGet s.ps_bytecode_cache u).m_initialized = true
  · rw [handlePS_of_init s u c t hi]
    cases t <;> rfl
  · have hi2 : (cacheGet s.ps_bytecode_cache u).m_initialized = false := by simpa using hi
    rw [handlePS_of_fresh s u c t hi2]


/-- `HandlePSUIDChange` leaves `s_last_geometry_shader_uid` alone. -/
theorem handlePS_pres_s_last_geometry_shader_uid (s : ShaderCacheState) (u : PixelShaderUid) (c : String)
    (t : Bool) : (HandlePSUIDChange s u c t).s_last_geometry_shader_uid = s.s_last_geometry_shader_uid := by
  by_cases hi : (cacheGet s.ps_bytecode_cache u).m_initialized = true
  · rw [handlePS_of_init s u c t hi]
    cases t <;> rfl
  · have hi2 : (cacheGet s.ps_bytecode_cache u).m_initialized = false := by simpa using hi
    rw [handlePS_of_fresh s u c t hi2]


/-- `HandlePSUIDChange` leaves `s_last_pixel_shader_uid` alone. -/
theorem handlePS_pres_s_last_pixel_shader_uid (s : ShaderCacheState) (u : PixelShaderUid) (c : String)
    (t : Bool) : (HandlePSUIDChange s u c t).s_last_pixel_shader_uid = s.s_last_pixel_shader_uid := by
  by_cases hi : (cacheGet s.ps_bytecode_cache u).m_initialized = true
  · rw [handlePS_of_init s u c t hi]
    cases t <;> rfl
  · have hi2 : (cacheGet s.ps_bytecode_cache u).m_initialized = false := by simpa using hi
    rw [handlePS_of_fresh s u c t hi2]


/-- `HandlePSUIDChange` leaves `s_last_vertex_shader_uid` alone. -/
theorem handlePS_pres_s_last_vertex_shader_uid (s : ShaderCacheState) (u : PixelShaderUid) (c : String)
    (t : Bool) : (HandlePSUIDChange s u c t).s_last_vertex_shader_uid = s.s_last_vertex_shader_uid := by
  by_cases hi : (cacheGet s.ps_bytecode_cache u).m_initialized = true
  · rw [handlePS_of_init s u c t hi]
    cases t <;> rfl
  · have hi2 : (cacheGet s.ps_bytecode_cache u).m_initialized = false := by simpa using hi
    rw [handlePS_of_fresh s u c t hi2]


/-- `HandlePSUIDChange` leaves `s_last_cpu_geometry_shader_uid` alone. -/
theorem handlePS_pres_s_last_cpu_geometry_shader_uid (s : ShaderCacheState) (u : PixelShaderUid) (c : String)
    (t : Bool) : (HandlePSUIDChange s u c t).s_last_cpu_geometry_shader_uid = s.s_last_cpu_geometry_shader_uid := by
  by_cases hi : (cacheGet s.ps_bytecode_cache u).m_initialized = true
  · rw [handlePS_of_init s u c t hi]
    cases t <;> rfl
  · have hi2 : (cacheGet s.ps_bytecode_cache u).m_initialized = false := by simpa using hi
    rw [handlePS_of_fresh s u c t hi2]


/-- `HandlePSUIDChange` leaves `s_last_cpu_pixel_shader_uid` alone. -/
theorem handlePS_pres_s_last_cpu_pixel_shader_uid (s : ShaderCacheState) (u : PixelShaderUid) (c : String)
    (t : Bool) : (HandlePSUIDChange s u c t).s_last_cpu_pixel_shader_uid = s.s_last_cpu_pixel_shader_uid := by
  by_cases hi : (cacheGet s.ps_bytecode_cache u).m_initialized = true
  · rw [handlePS_of_init s u c t hi]
    cases t <;> rfl
  · have hi2 : (cacheGet s.ps_bytecode_cache u).m_initialized = false := by simpa using hi
    rw [handlePS_of_fresh s u c t hi2]


/-- `HandlePSUIDChange` leaves `s_last_cpu_vertex_shader_uid` alone. -/
theorem handlePS_pres_s_last_cpu_vertex_shader_uid (s : ShaderCacheState) (u : PixelShaderUid) (c : String)
    (t : Bool) : (HandlePSUIDChange s u c t).s_last_cpu_vertex_shader_uid = s.s_last_cpu_vertex_shader_uid := by
  by_cases hi : (cacheGet s.ps_bytecode_cache u).m_initialized = true
  · rw [handlePS_of_init s u c t hi]
    cases t <;> rfl
  · have hi2 : (cacheGet s.ps_bytecode_cache u).m_initialized = false := by simpa using hi
    rw [handlePS_of_fresh s u c t hi2]


/-- `HandlePSUIDChange` leaves `m_dirty_pso` alone. -/
theorem handlePS_pres_m_dirty_pso (s : ShaderCacheState) (u : PixelShaderUid) (c : String)
    (t : Bool) : (HandlePSUIDChange s u c t).m_dirty_pso = s.m_dirty_pso := by
  by_cases hi : (cacheGet s.ps_bytecode_cache u).m_initialized = true
  · rw [handlePS_of_init s u c t hi]
    cases t <;> rfl
  · have hi2 : (cacheGet s.ps_bytecode_cache u).m_initialized = false := by simpa using hi
    rw [handlePS_of_fresh s u c t hi2]


/-- `HandlePSUIDChange` leaves `s_current_primitive_topology` alone. -/
theorem handlePS_pres_s_current_primitive_topology (s : ShaderCacheState) (u : PixelShaderUid) (c : String)
    (t : Bool) : (HandlePSUIDChange s u c t).s_current_primitive_topology = s.s_current_primitive_topology := by
  by_cases hi : (cacheGet s.ps_bytecode_cache u).m_initialized = true
  · rw [handlePS_of_init s u c t hi]
    cases t <;> rfl
  · have hi2 : (cacheGet s.ps_bytecode_cache u).m_initialized = false := by simpa using hi
    rw [handlePS_of_fresh s u c t hi2]


/-- `HandlePSUIDChange` leaves `s_pass_entry` alone. -/
theorem handlePS_pres_s_pass_entry (s : ShaderCacheState) (u : PixelShaderUid) (c : String)
    (t : Bool) : (HandlePSUIDChange s u c t).s_pass_entry = s.s_pass_entry := by
  by_cases hi : (cacheGet s.ps_bytecode_cache u).m_initialized = true
  · rw [handlePS_of_init s u c t hi]
    cases t <;> rfl
  · have hi2 : (cacheGet s.ps_bytecode_cache u).m_initialized = false := by simpa using hi
    rw [handlePS_of_fresh s u c t hi2]


/-- `HandlePSUIDChange` leaves `s_gs_disk_cache` alone. -/
theorem handlePS_pres_s_gs_disk_cache (s : ShaderCacheState) (u : PixelShaderUid) (c : String)
    (t : Bool) : (HandlePSUIDChange s u c t).s_gs_disk_cache = s.s_gs_disk_cache := by
  by_cases hi : (cacheGet s.ps_bytecode_cache u).m_initialized = true
  · rw [handlePS_of_init s u c t hi]
    cases t <;> rfl
  · have hi2 : (cacheGet s.ps_bytecode_cache u).m_initialized = false := by simpa using hi
    rw [handlePS_of_fresh s u c t hi2]


/-- `HandlePSUIDChange` leaves `s_ps_disk_cache` alone. -/
theorem handlePS_pres_s_ps_disk_cache (s : ShaderCacheState) (u : PixelShaderUid) (c : String)
    (t : Bool) : (HandlePSUIDChange s u c t).s_ps_disk_cache = s.s_ps_disk_cache := by
  by_cases hi : (cacheGet s.ps_bytecode_cache u).m_initialized = true
  · rw [handlePS_of_init s u c t hi]
    cases t <;> rfl
  · have hi2 : (cacheGet s.ps_bytecode_cache u).m_initialized = false := by simpa using hi
    rw [handlePS_of_fresh s u c t hi2]


/-- `HandlePSUIDChange` leaves `s_vs_disk_cache` alone. -/
theorem handlePS_pres_s_vs_disk_cache (s : ShaderCacheState) (u : PixelShaderUid) (c : String)
    (t : Bool) : (HandlePSUIDChange s u c t).s_vs_disk_cache = s.s_vs_disk_cache := by
  by_cases hi : (cacheGet s.ps_bytecode_cache u).m_initialized = true
  · rw [handlePS_of_init s u c t hi]
    cases t <;> rfl
  · have hi2 : (cacheGet s.ps_bytecode_cache u).m_initialized = false := by simpa using hi
    rw [handlePS_of_fresh s u c t hi2]


/-- `HandlePSUIDChange` leaves `dump_files` alone. -/
theorem handlePS_pres_dump_files (s : ShaderCacheState) (u : PixelShaderUid) (c : String)
    (t : Bool) : (HandlePSUIDChange s u c t).dump_files = s.dump_files := by
  by_cases hi : (cacheGet s.ps_bytecode_cache u).m_initialized = true
  · rw [handlePS_of_init s u c t hi]
    cases t <;> rfl
  · have hi2 : (cacheGet s.ps_bytecode_cache u).m_initialized = false := by simpa using hi
    rw [handlePS_of_fresh s u c t hi2]


/-- `HandlePSUIDChange` leaves `alerts` alone. -/
theorem handlePS_pres_alerts (s : ShaderCacheState) (u : PixelShaderUid) (c : String)
    (t : Bool) : (HandlePSUIDChange s u c t).alerts = s.alerts := by
  by_cases hi : (cacheGet s.ps_bytecode_cache u).m_initialized = true
  · rw [handlePS_of_init s u c t hi]
    cases t <;> rfl
  · have hi2 : (cacheGet s.ps_bytecode_cache u).m_initialized = false := by simpa using hi
    rw [handlePS_of_fresh s u c t hi2]


/-- `HandleVSUIDChange` leaves `gs_bytecode_cache` alone. -/
theorem handleVS_pres_gs_bytecode_cache (s : ShaderCacheState) (u : VertexShaderUid) (c : String)
    (t : Bool) : (HandleVSUIDChange s u c t).gs_bytecode_cache = s.gs_bytecode_cache := by
  by_cases hi : (cacheGet s.vs_bytecode_cache u).m_initialized = true
  · rw [handleVS_of_init s u c t hi]
    cases t <;> rfl
  · have hi2 : (cacheGet s.vs_bytecode_cache u).m_initialized = false := by simpa using hi
    rw [handleVS_of_fresh s u c t hi2]


/-- `HandleVSUIDChange` leaves `ps_bytecode_cache` alone. -/
theorem handleVS_pres_ps_bytecode_cache (s : ShaderCacheState) (u : VertexShaderUid) (c : String)
    (t : Bool) : (HandleVSUIDChange s u c t).ps_bytecode_cache = s.ps_bytecode_cache := by
  by_cases hi : (cacheGet s.vs_bytecode_cache u).m_initialized = true
  · rw [handleVS_of_init s u c t hi]
    cases t <;> rfl
  · have hi2 : (cacheGet s.vs_bytecode_cache u).m_initialized = false := by simpa using hi
    rw [handleVS_of_fresh s u c t hi2]


/-- `HandleVSUIDChange` leaves `s_last_geometry_shader_bytecode` alone. -/
theorem handleVS_pres_s_last_geometry_shader_bytecode (s : ShaderCacheState) (u : VertexShaderUid) (c : String)
    (t : Bool) : (HandleVSUIDChange s u c t).s_last_geometry_shader_bytecode = s.s_last_geometry_shader_bytecode := by
  by_cases hi : (cacheGet s.vs_bytecode_cache u).m_initialized = true
  · rw [handleVS_of_init s u c t hi]
    cases t <;> rfl
  · have hi2 : (cacheGet s.vs_bytecode_cache u).m_initialized = false := by simpa using hi
    rw [handleVS_of_fresh s u c t hi2]


/-- `HandleVSUIDChange` leaves `s_last_pixel_shader_bytecode` alone. -/
theorem handleVS_pres_s_last_pixel_shader_bytecode (s : ShaderCacheState) (u : VertexShaderUid) (c : String)
    (t : Bool) : (HandleVSUIDChange s u c t).s_last_pixel_shader_bytecode = s.s_last_pixel_shader_bytecode := by
  by_cases hi : (cacheGet s.vs_bytecode_cache u).m_initialized = true
  · rw [handleVS_of_init s u c t hi]
    cases t <;> rfl
  · have hi2 : (cacheGet s.vs_bytecode_cache u).m_initialized = false := by simpa using hi
    rw [handleVS_of_fresh s u c t hi2]


/-- `HandleVSUIDChange` leaves `s_last_geometry_shader_uid` alone. -/
theorem handleVS_pres_s_last_geometry_shader_uid (s : ShaderCacheState) (u : VertexShaderUid) (c : String)
    (t : Bool) : (HandleVSUIDChange s u c t).s_last_geometry_shader_uid = s.s_last_geometry_shader_uid := by
  by_cases hi : (cacheGet s.vs_bytecode_cache u).m_initialized = true
  · rw [handleVS_of_init s u c t hi]
    cases t <;> rfl
  · have hi2 : (cacheGet s.vs_bytecode_cache u).m_initialized = false := by simpa using hi
    rw [handleVS_of_fresh s u c t hi2]


/-- `HandleVSUIDChange` leaves `s_last_pixel_shader_uid` alone. -/
theorem handleVS_pres_s_last_pixel_shader_uid (s : ShaderCacheState) (u : VertexShaderUid) (c : String)
    (t : Bool) : (HandleVSUIDChange s u c t).s_last_pixel_shader_uid = s.s_last_pixel_shader_uid := by
  by_cases hi : (cacheGet s.vs_bytecode_cache u).m_initialized = true
  · rw [handleVS_of_init s u c t hi]
    cases t <;> rfl
  · have hi2 : (cacheGet s.vs_bytecode_cache u).m_initialized = false := by simpa using hi
    rw [handleVS_of_fresh s u c t hi2]


/-- `HandleVSUIDChange` leaves `s_last_vertex_shader_uid` alone. -/
theorem handleVS_pres_s_last_vertex_shader_uid (s : ShaderCacheState) (u : VertexShaderUid) (c : String)
    (t : Bool) : (HandleVSUIDChange s u c t).s_last_vertex_shader_uid = s.s_last_vertex_shader_uid := by
  by_cases hi : (cacheGet s.vs_bytecode_cache u).m_initialized = true
  · rw [handleVS_of_init s u c t hi]
    cases t <;> rfl
  · have hi2 : (cacheGet s.vs_bytecode_cache u).m_initialized = false := by simpa using hi
    rw [handleVS_of_fresh s u c t hi2]


/-- `HandleVSUIDChange` leaves `s_last_cpu_geometry_shader_uid` alone. -/
theorem handleVS_pres_s_last_cpu_geometry_shader_uid (s : ShaderCacheState) (u : VertexShaderUid) (c : String)
    (t : Bool) : (HandleVSUIDChange s u c t).s_last_cpu_geometry_shader_uid = s.s_last_cpu_geometry_shader_uid := by
  by_cases hi : (cacheGet s.vs_bytecode_cache u).m_initialized = true
  · rw [handleVS_of_init s u c t hi]
    cases t <;> rfl
  · have hi2 : (cacheGet s.vs_bytecode_cache u).m_initialized = false := by simpa using hi
    rw [handleVS_of_fresh s u c t hi2]


/-- `HandleVSUIDChange` leaves `s_last_cpu_pixel_shader_uid` alone. -/
theorem handleVS_pres_s_last_cpu_pixel_shader_uid (s : ShaderCacheState) (u : VertexShaderUid) (c : String)
    (t : Bool) : (HandleVSUIDChange s u c t).s_last_cpu_pixel_shader_uid = s.s_last_cpu_pixel_shader_uid := by
  by_cases hi : (cacheGet s.vs_bytecode_cache u).m_initialized = true
  · rw [handleVS_of_init s u c t hi]
    cases t <;> rfl
  · have hi2 : (cacheGet s.vs_bytecode_cache u).m_initialized = false := by simpa using hi
    rw [handleVS_of_fresh s u c t hi2]


/-- `HandleVSUIDChange` leaves `s_last_cpu_vertex_shader_uid` alone. -/
theorem handleVS_pres_s_last_cpu_vertex_shader_uid (s : ShaderCacheState) (u : VertexShaderUid) (c : String)
    (t : Bool) : (HandleVSUIDChange s u c t).s_last_cpu_vertex_shader_uid = s.s_last_cpu_vertex_shader_uid := by
  by_cases hi : (cacheGet s.vs_bytecode_cache u).m_initialized = true
  · rw [handleVS_of_init s u c t hi]
    cases t <;> rfl
  · have hi2 : (cacheGet s.vs_bytecode_cache u).m_initialized = false := by simpa using hi
    rw [handleVS_of_fresh s u c t hi2]


/-- `HandleVSUIDChange` leaves `m_dirty_pso` alone. -/
theorem handleVS_pres_m_dirty_pso (s : ShaderCacheState) (u : VertexShaderUid) (c : String)
    (t : Bool) : (HandleVSUIDChange s u c t).m_dirty_pso = s.m_dirty_pso := by
  by_cases hi : (cacheGet s.vs_bytecode_cache u).m_initialized = true
  · rw [handleVS_of_init s u c t hi]
    cases t <;> rfl
  · have hi2 : (cacheGet s.vs_bytecode_cache u).m_initialized = false := by simpa using hi
    rw [handleVS_of_fresh s u c t hi2]


/-- `HandleVSUIDChange` leaves `s_current_primitive_topology` alone. -/
theorem handleVS_pres_s_current_primitive_topology (s : ShaderCacheState) (u : VertexShaderUid) (c : String)
    (t : Bool) : (HandleVSUIDChange s u c t).s_current_primitive_topology = s.s_current_primitive_topology := by
  by_cases hi : (cacheGet s.vs_bytecode_cache u).m_initialized = true
  · rw [handleVS_of_init s u c t hi]
    cases t <;> rfl
  · have hi2 : (cacheGet s.vs_bytecode_cache u).m_initialized = false := by simpa using hi
    rw [handleVS_of_fresh s u c t hi2]


/-- `HandleVSUIDChange` leaves `s_pass_entry` alone. -/
theorem handleVS_pres_s_pass_entry (s : ShaderCacheState) (u : VertexShaderUid) (c : String)
    (t : Bool) : (HandleVSUIDChange s u c t).s_pass_entry = s.s_pass_entry := by
  by_cases hi : (cacheGet s.vs_bytecode_cache u).m_initialized = true
  · rw [handleVS_of_init s u c t hi]
    cases t <;> rfl
  · have hi2 : (cacheGet s.vs_bytecode_cache u).m_initialized = false := by simpa using hi
    rw [handleVS_of_fresh s u c t hi2]


/-- `HandleVSUIDChange` leaves `s_gs_disk_cache` alone. -/
theorem handleVS_pres_s_gs_disk_cache (s : ShaderCacheState) (u : VertexShaderUid) (c : String)
    (t : Bool) : (HandleVSUIDChange s u c t).s_gs_disk_cache = s.s_gs_disk_cache := by
  by_cases hi : (cacheGet s.vs_bytecode_cache u).m_initialized = true
  · rw [handleVS_of_init s u c t hi]
    cases t <;> rfl
  · have hi2 : (cacheGet s.vs_bytecode_cache u).m_initialized = false := by simpa using hi
    rw [handleVS_of_fresh s u c t hi2]


/-- `HandleVSUIDChange` leaves `s_ps_disk_cache` alone. -/
theorem handleVS_pres_s_ps_disk_cache (s : ShaderCacheState) (u : VertexShaderUid) (c : String)
    (t : Bool) : (HandleVSUIDChange s u c t).s_ps_disk_cache = s.s_ps_disk_cache := by
  by_cases hi : (cacheGet s.vs_bytecode_cache u).m_initialized = true
  · rw [handleVS_of_init s u c t hi]
    cases t <;> rfl
  · have hi2 : (cacheGet s.vs_bytecode_cache u).m_initialized = false := by simpa using hi
    rw [handleVS_of_fresh s u c t hi2]


/-- `HandleVSUIDChange` leaves `s_vs_disk_cache` alone. -/
theorem handleVS_pres_s_vs_disk_cache (s : ShaderCacheState) (u : VertexShaderUid) (c : String)
    (t : Bool) : (HandleVSUIDChange s u c t).s_vs_disk_cache = s.s_vs_disk_cache := by
  by_cases hi : (cacheGet s.vs_bytecode_cache u).m_initialized = true
  · rw [handleVS_of_init s u c t hi]
    cases t <;> rfl
  · have hi2 : (cacheGet s.vs_bytecode_cache u).m_initialized = false := by simpa using hi
    rw [handleVS_of_fresh s u c t hi2]


/-- `HandleVSUIDChange` leaves `dump_files` alone. -/
theorem handleVS_pres_dump_files (s : ShaderCacheState) (u : VertexShaderUid) (c : String)
    (t : Bool) : (HandleVSUIDChange s u c t).dump_files = s.dump_files := by
  by_cases hi : (cacheGet s.vs_bytecode_cache u).m_initialized = true
  · rw [handleVS_of_init s u c t hi]
    cases t <;> rfl
  · have hi2 : (cacheGet s.vs_bytecode_cache u).m_initialized = false := by simpa using hi
    rw [handleVS_of_fresh s u c t hi2]


/-- `HandleVSUIDChange` leaves `alerts` alone. -/
theorem handleVS_pres_alerts (s : ShaderCacheState) (u : VertexShaderUid) (c : String)
    (t : Bool) : (HandleVSUIDChange s u c t).alerts = s.alerts := by
  by_cases hi : (cacheGet s.vs_bytecode_cache u).m_initialized = true
  · rw [handleVS_of_init s u c t hi]
    cases t <;> rfl
  · have hi2 : (cacheGet s.vs_bytecode_cache u).m_initialized = false := by simpa using hi
    rw [handleVS_of_fresh s u c t hi2]

/-- When the one-shot flag is already set, setting it again is a no-op. -/
theorem entry_set_initialized_self (e : ByteCodeCacheEntry) (h : e.m_initialized = true) :
    { e with m_initialized := true } = e := by
  obtain ⟨a, b, f, d⟩ := e
  simp only at h
  rw [h]

/-- Dispatch log of a geometry handler call: one new unit exactly when
the UID is not passthrough and its entry was uninitialized. -/
theorem handleGS_log (s : ShaderCacheState) (u : GeometryShaderUid) (c : String)
    (t : Bool) :
    (HandleGSUIDChange s u c t).dispatch_log =
      if u.passthrough = true ∨ (cacheGet s.gs_bytecode_cache u).m_initialized = true
      then s.dispatch_log
      else s.dispatch_log ++ [{ wuid := UnitUid.gs u, code := c }] := by
  by_cases hp : u.passthrough = true
  · rw [handleGS_of_pass s u c t hp]
    simp [hp]
  · have hp2 : u.passthrough = false := by simpa using hp
    by_cases hi : (cacheGet s.gs_bytecode_cache u).m_initialized = true
    · rw [handleGS_of_init s u c t hp2 hi]
      cases t <;> simp [hp, hi]
    · have hi2 : (cacheGet s.gs_bytecode_cache u).m_initialized = false := by simpa using hi
      rw [handleGS_of_fresh s u c t hp2 hi2]
      simp [hp, hi]

/-- Dispatch log of a pixel handler call. -/
theorem handlePS_log (s : ShaderCacheState) (u : PixelShaderUid) (c : String)
    (t : Bool) :
    (HandlePSUIDChange s u c t).dispatch_log =
      if (cacheGet s.ps_bytecode_cache u).m_initialized = true
      then s.dispatch_log
      else s.dispatch_log ++ [{ wuid := UnitUid.ps u, code := c }] := by
  by_cases hi : (cacheGet s.ps_bytecode_cache u).m_initialized = true
  · rw [handlePS_of_init s u c t hi]
    cases t <;> simp [hi]
  · have hi2 : (cacheGet s.ps_bytecode_cache u).m_initialized = false := by simpa using hi
    rw [handlePS_of_fresh s u c t hi2]
    simp [hi]

/-- Dispatch log of a vertex handler call. -/
theorem handleVS_log (s : ShaderCacheState) (u : VertexShaderUid) (c : String)
    (t : Bool) :
    (HandleVSUIDChange s u c t).dispatch_log =
      if (cacheGet s.vs_bytecode_cache u).m_initialized = true
      then s.dispatch_log
      else s.dispatch_log ++ [{ wuid := UnitUid.vs u, code := c }] := by
  by_cases hi : (cacheGet s.vs_bytecode_cache u).m_initialized = true
  · rw [handleVS_of_init s u c t hi]
    cases t <;> simp [hi]
  · have hi2 : (cacheGet s.vs_bytecode_cache u).m_initialized = false := by simpa using hi
    rw [handleVS_of_fresh s u c t hi2]
    simp [hi]

/-- Binding after a geometry handler call. -/
theorem handleGS_bind (s : ShaderCacheState) (u : GeometryShaderUid) (c : String)
    (t : Bool) :
    (HandleGSUIDChange s u c t).s_last_geometry_shader_bytecode =
      if u.passthrough = true then some GsActive.passEntry
      else if t = true then some (GsActive.entryFor u)
      else s.s_last_geometry_shader_bytecode := by
  by_cases hp : u.passthrough = true
  · rw [handleGS_of_pass s u c t hp]
    simp [hp]
  · have hp2 : u.passthrough = false := by simpa using hp
    by_cases hi : (cacheGet s.gs_bytecode_cache u).m_initialized = true
    · rw [handleGS_of_init s u c t hp2 hi]
      cases t <;> simp [hp]
    · have hi2 : (cacheGet s.gs_bytecode_cache u).m_initialized = false := by simpa using hi
      rw [handleGS_of_fresh s u c t hp2 hi2]
      simp [hp]

/-- Binding after a pixel handler call. -/
theorem handlePS_bind (s : ShaderCacheState) (u : PixelShaderUid) (c : String)
    (t : Bool) :
    (HandlePSUIDChange s u c t).s_last_pixel_shader_bytecode =
      if t = true then some u else s.s_last_pixel_shader_bytecode := by
  by_cases hi : (cacheGet s.ps_bytecode_cache u).m_initialized = true
  · rw [handlePS_of_init s u c t hi]
    cases t <;> simp
  · have hi2 : (cacheGet s.ps_bytecode_cache u).m_initialized = false := by simpa using hi
    rw [handlePS_of_fresh s u c t hi2]

/-- Binding after a vertex handler call. -/
theorem handleVS_bind (s : ShaderCacheState) (u : VertexShaderUid) (c : String)
    (t : Bool) :
    (HandleVSUIDChange s u c t).s_last_vertex_shader_bytecode =
      if t = true then some u else s.s_last_vertex_shader_bytecode := by
  by_cases hi : (cacheGet s.vs_bytecode_cache u).m_initialized = true
  · rw [handleVS_of_init s u c t hi]
    cases t <;> simp
  · have hi2 : (cacheGet s.vs_bytecode_cache u).m_initialized = false := by simpa using hi
    rw [handleVS_of_fresh s u c t hi2]

/-- After a non-passthrough geometry handler call the called UID's entry
carries the one-shot flag, with nothing else touched. -/
theorem handleGS_cacheGet_self (s : ShaderCacheState) (u : GeometryShaderUid)
    (c : String) (t : Bool) (hp : u.passthrough = false) :
    cacheGet (HandleGSUIDChange s u c t).gs_bytecode_cache u =
      { cacheGet s.gs_bytecode_cache u with m_initialized := true } := by
  by_cases hi : (cacheGet s.gs_bytecode_cache u).m_initialized = true
  · rw [handleGS_of_init s u c t hp hi]
    cases t <;> simp [entry_set_initialized_self _ hi]
  · have hi2 : (cacheGet s.gs_bytecode_cache u).m_initialized = false := by simpa using hi
    rw [handleGS_of_fresh s u c t hp hi2]
    simp [cacheGet_update_index_self]

/-- A geometry handler call reads or writes no other UID's entry. -/
theorem handleGS_cacheGet_ne (s : ShaderCacheState) (u u' : GeometryShaderUid)
    (c : String) (t : Bool) (h : u' ≠ u) :
    cacheGet (HandleGSUIDChange s u c t).gs_bytecode_cache u' =
      cacheGet s.gs_bytecode_cache u' := by
  by_cases hp : u.passthrough = true
  · rw [handleGS_of_pass s u c t hp]
  · have hp2 : u.passthrough = false := by simpa using hp
    by_cases hi : (cacheGet s.gs_bytecode_cache u).m_initialized = true
    · rw [handleGS_of_init s u c t hp2 hi]
      cases t <;> rfl
    · have hi2 : (cacheGet s.gs_bytecode_cache u).m_initialized = false := by simpa using hi
      rw [handleGS_of_fresh s u c t hp2 hi2]
      simp [cacheGet_update_index_ne _ _ _ _ h]

/-- After a pixel handler call the called UID's entry carries the
one-shot flag. -/
theorem handlePS_cacheGet_self (s : ShaderCacheState) (u : PixelShaderUid)
    (c : String) (t : Bool) :
    cacheGet (HandlePSUIDChange s u c t).ps_bytecode_cache u =
      { cacheGet s.ps_bytecode_cache u with m_initialized := true } := by
  by_cases hi : (cacheGet s.ps_bytecode_cache u).m_initialized = true
  · rw [handlePS_of_init s u c t hi]
    cases t <;> simp [entry_set_initialized_self _ hi]
  · have hi2 : (cacheGet s.ps_bytecode_cache u).m_initialized = false := by simpa using hi
    rw [handlePS_of_fresh s u c t hi2]
    simp [cacheGet_update_index_self]

/-- A pixel handler call reads or writes no other UID's entry. -/
theorem handlePS_cacheGet_ne (s : ShaderCacheState) (u u' : PixelShaderUid)
    (c : String) (t : Bool) (h : u' ≠ u) :
    cacheGet (HandlePSUIDChange s u c t).ps_bytecode_cache u' =
      cacheGet s.ps_bytecode_cache u' := by
  by_cases hi : (cacheGet s.ps_bytecode_cache u).m_initialized = true
  · rw [handlePS_of_init s u c t hi]
    cases t <;> rfl
  · have hi2 : (cacheGet s.ps_bytecode_cache u).m_initialized = false := by simpa using hi
    rw [handlePS_of_fresh s u c t hi2]
    simp [cacheGet_update_index_ne _ _ _ _ h]

/-- After a vertex handler call the called UID's entry carries the
one-shot flag. -/
theorem handleVS_cacheGet_self (s : ShaderCacheState) (u : VertexShaderUid)
    (c : String) (t : Bool) :
    cacheGet (HandleVSUIDChange s u c t).vs_bytecode_cache u =
      { cacheGet s.vs_bytecode_cache u with m_initialized := true } := by
  by_cases hi : (cacheGet s.vs_bytecode_cache u).m_initialized = true
  · rw [handleVS_of_init s u c t hi]
    cases t <;> simp [entry_set_initialized_self _ hi]
  · have hi2 : (cacheGet s.vs_bytecode_cache u).m_initialized = false := by simpa using hi
    rw [handleVS_of_fresh s u c t hi2]
    simp [cacheGet_update_index_self]

/-- A vertex handler call reads or writes no other UID's entry. -/
theorem handleVS_cacheGet_ne (s : ShaderCacheState) (u u' : VertexShaderUid)
    (c : String) (t : Bool) (h : u' ≠ u) :
    cacheGet (HandleVSUIDChange s u c t).vs_bytecode_cache u' =
      cacheGet s.vs_bytecode_cache u' := by
  by_cases hi : (cacheGet s.vs_bytecode_cache u).m_initialized = true
  · rw [handleVS_of_init s u c t hi]
    cases t <;> rfl
  · have hi2 : (cacheGet s.vs_bytecode_cache u).m_initialized = false := by simpa using hi
    rw [handleVS_of_fresh s u c t hi2]
    simp [cacheGet_update_index_ne _ _ _ _ h]





/-- Counting after appending a single unit. -/
theorem countUid_append_single (l : List ShaderCompilerWorkUnit)
    (w : ShaderCompilerWorkUnit) (u : UnitUid) :
    countUid (l ++ [w]) u = countUid l u + (if w.wuid = u then 1 else 0) := by
  by_cases h : w.wuid = u <;> simp [countUid, List.filter_append, h]

/-- One-shot flags after a geometry handler call. -/
theorem uidInit_handleGS (s : ShaderCacheState) (u : GeometryShaderUid) (c : String)
    (t : Bool) (v : UnitUid) :
    uidInitialized (HandleGSUIDChange s u c t) v =
      if v = UnitUid.gs u ∧ u.passthrough = false then true
      else uidInitialized s v := by
  cases v with
  | gs g =>
    by_cases hg : g = u
    · subst hg
      by_cases hp : g.passthrough = true
      · simp only [uidInitialized]
        rw [handleGS_of_pass s g c t hp]
        simp [hp]
      · have hp2 : g.passthrough = false := by simpa using hp
        simp only [uidInitialized]
        rw [handleGS_cacheGet_self s g c t hp2]
        simp [hp2]
    · have : UnitUid.gs g ≠ UnitUid.gs u := by simpa using hg
      simp only [uidInitialized, this, false_and, if_false]
      rw [handleGS_cacheGet_ne s u g c t hg]
  | ps p =>
    simp only [uidInitialized]
    rw [handleGS_pres_ps_bytecode_cache]
    simp
  | vs p =>
    simp only [uidInitialized]
    rw [handleGS_pres_vs_bytecode_cache]
    simp

/-- One-shot flags after a pixel handler call. -/
theorem uidInit_handlePS (s : ShaderCacheState) (u : PixelShaderUid) (c : String)
    (t : Bool) (v : UnitUid) :
    uidInitialized (HandlePSUIDChange s u c t) v =
      if v = UnitUid.ps u then true else uidInitialized s v := by
  cases v with
  | ps p =>
    by_cases hg : p = u
    · subst hg
      simp only [uidInitialized]
      rw [handlePS_cacheGet_self s p c t]
      simp
    · have : UnitUid.ps p ≠ UnitUid.ps u := by simpa using hg
      simp only [uidInitialized, this, if_false]
      rw [handlePS_cacheGet_ne s u p c t hg]
  | gs g =>
    simp only [uidInitialized]
    rw [handlePS_pres_gs_bytecode_cache]
    simp
  | vs p =>
    simp only [uidInitialized]
    rw [handlePS_pres_vs_bytecode_cache]
    simp

/-- One-shot flags after a vertex handler call. -/
theorem uidInit_handleVS (s : ShaderCacheState) (u : VertexShaderUid) (c : String)
    (t : Bool) (v : UnitUid) :
    uidInitialized (HandleVSUIDChange s u c t) v =
      if v = UnitUid.vs u then true else uidInitialized s v := by
  cases v with
  | vs p =>
    by_cases hg : p = u
    · subst hg
      simp only [uidInitialized]
      rw [handleVS_cacheGet_self s p c t]
      simp
    · have : UnitUid.vs p ≠ UnitUid.vs u := by simpa using hg
      simp only [uidInitialized, this, if_false]
      rw [handleVS_cacheGet_ne s u p c t hg]
  | gs g =>
    simp only [uidInitialized]
    rw [handleVS_pres_gs_bytecode_cache]
    simp
  | ps p =>
    simp only [uidInitialized]
    rw [handleVS_pres_ps_bytecode_cache]
    simp

/-- Dispatch counts after a geometry handler call. -/
theorem count_handleGS (s : ShaderCacheState) (u : GeometryShaderUid) (c : String)
    (t : Bool) (v : UnitUid) :
    dispatchCount (HandleGSUIDChange s u c t) v =
      dispatchCount s v +
        (if v = UnitUid.gs u ∧ u.passthrough = false ∧
            uidInitialized s (UnitUid.gs u) = false then 1 else 0) := by
  unfold dispatchCount
  rw [handleGS_log]
  by_cases hp : u.passthrough = true
  · simp [hp]
  · have hp2 : u.passthrough = false := by simpa using hp
    by_cases hi : (cacheGet s.gs_bytecode_cache u).m_initialized = true
    · have : uidInitialized s (UnitUid.gs u) = true := hi
      simp [hp2, hi, this]
    · have hi2 : (cacheGet s.gs_bytecode_cache u).m_initialized = false := by simpa using hi
      have hinit : uidInitialized s (UnitUid.gs u) = false := hi2
      simp only [hp2, hi2, Bool.false_eq_true, or_self, if_false, hinit]
      rw [countUid_append_single]
      by_cases hv : v = UnitUid.gs u
      · simp [hv]
      · have h2 : ¬ UnitUid.gs u = v := fun hh => hv hh.symm
        simp [hv, h2]

/-- Dispatch counts after a pixel handler call. -/
theorem count_handlePS (s : ShaderCacheState) (u : PixelShaderUid) (c : String)
    (t : Bool) (v : UnitUid) :
    dispatchCount (HandlePSUIDChange s u c t) v =
      dispatchCount s v +
        (if v = UnitUid.ps u ∧ uidInitialized s (UnitUid.ps u) = false
         then 1 else 0) := by
  unfold dispatchCount
  rw [handlePS_log]
  by_cases hi : (cacheGet s.ps_bytecode_cache u).m_initialized = true
  · have : uidInitialized s (UnitUid.ps u) = true := hi
    simp [hi, this]
  · have hi2 : (cacheGet s.ps_bytecode_cache u).m_initialized = false := by simpa using hi
    have hinit : uidInitialized s (UnitUid.ps u) = false := hi2
    simp only [hi2, Bool.false_eq_true, if_false, hinit]
    rw [countUid_append_single]
    by_cases hv : v = UnitUid.ps u
    · simp [hv]
    · have h2 : ¬ UnitUid.ps u = v := fun hh => hv hh.symm
      simp [hv, h2]

/-- Dispatch counts after a vertex handler call. -/
theorem count_handleVS (s : ShaderCacheState) (u : VertexShaderUid) (c : String)
    (t : Bool) (v : UnitUid) :
    dispatchCount (HandleVSUIDChange s u c t) v =
      dispatchCount s v +
        (if v = UnitUid.vs u ∧ uidInitialized s (UnitUid.vs u) = false
         then 1 else 0) := by
  unfold dispatchCount
  rw [handleVS_log]
  by_cases hi : (cacheGet s.vs_bytecode_cache u).m_initialized = true
  · have : uidInitialized s (UnitUid.vs u) = true := hi
    simp [hi, this]
  · have hi2 : (cacheGet s.vs_bytecode_cache u).m_initialized = false := by simpa using hi
    have hinit : uidInitialized s (UnitUid.vs u) = false := hi2
    simp only [hi2, Bool.false_eq_true, if_false, hinit]
    rw [countUid_append_single]
    by_cases hv : v = UnitUid.vs u
    · simp [hv]
    · have h2 : ¬ UnitUid.vs u = v := fun hh => hv hh.symm
      simp [hv, h2]

/-- Generic step argument: a transition that sets exactly one one-shot
flag, and appends exactly one dispatch when that flag was clear,
preserves the single-dispatch invariant. -/
theorem step_generic (s s' : ShaderCacheState) (w0 : UnitUid) (P : Prop)
    [Decidable P]
    (hinit : ∀ v, uidInitialized s' v =
      if v = w0 ∧ P then true else uidInitialized s v)
    (hcount : ∀ v, dispatchCount s' v =
      dispatchCount s v +
        (if v = w0 ∧ P ∧ uidInitialized s w0 = false then 1 else 0))
    (h : SingleDispatchInv s) :
    SingleDispatchInv s' ∧
    (∀ v, uidInitialized s v = true → uidInitialized s' v = true) ∧
    (∀ v, dispatchCount s v < dispatchCount s' v →
        uidInitialized s v = false ∧ uidInitialized s' v = true ∧
        dispatchCount s' v = 1) := by
  refine ⟨?_, ?_, ?_⟩
  · intro v
    by_cases hc : v = w0 ∧ P ∧ uidInitialized s w0 = false
    · obtain ⟨hv, hP, hflag⟩ := hc
      subst hv
      have hzero : dispatchCount s v = 0 := (h v).2 hflag
      constructor
      · rw [hcount v, hzero]
        simp [hP, hflag]
      · intro hfalse
        rw [hinit v] at hfalse
        simp [hP] at hfalse
    · constructor
      · rw [hcount v]
        simp only [hc, if_false]
        exact (h v).1
      · intro hfalse
        rw [hinit v] at hfalse
        by_cases hvp : v = w0 ∧ P
        · simp [hvp] at hfalse
        · simp only [hvp, if_false] at hfalse
          rw [hcount v]
          have : ¬ (v = w0 ∧ P ∧ uidInitialized s w0 = false) := by
            intro hh
            exact hvp ⟨hh.1, hh.2.1⟩
          simp only [this, if_false]
          exact (h v).2 hfalse
  · intro v hv
    rw [hinit v]
    by_cases hvp : v = w0 ∧ P <;> simp [hvp, hv]
  · intro v hlt
    rw [hcount v] at hlt
    by_cases hc : v = w0 ∧ P ∧ uidInitialized s w0 = false
    · obtain ⟨hv, hP, hflag⟩ := hc
      subst hv
      have hzero : dispatchCount s v = 0 := (h v).2 hflag
      refine ⟨hflag, ?_, ?_⟩
      · rw [hinit v]
        simp [hP]
      · rw [hcount v, hzero]
        simp [hP, hflag]
    · simp only [hc, if_false, Nat.add_zero] at hlt
      exact absurd hlt (lt_irrefl _)

/-- Step lemma for an arbitrary handler call: invariant preservation,
flag monotonicity, and dispatch-only-on-first-touch. -/
theorem handler_step (s : ShaderCacheState) (call : HandlerCall)
    (h : SingleDispatchInv s) :
    SingleDispatchInv (applyHandlerCall s call) ∧
    (∀ v, uidInitialized s v = true →
        uidInitialized (applyHandlerCall s call) v = true) ∧
    (∀ v, dispatchCount s v < dispatchCount (applyHandlerCall s call) v →
        uidInitialized s v = false ∧
        uidInitialized (applyHandlerCall s call) v = true ∧
        dispatchCount (applyHandlerCall s call) v = 1) := by
  cases call with
  | gsCall u c t =>
    exact step_generic s (HandleGSUIDChange s u c t) (UnitUid.gs u)
      (u.passthrough = false)
      (fun v => uidInit_handleGS s u c t v)
      (fun v => count_handleGS s u c t v) h
  | psCall u c t =>
    refine step_generic s (HandlePSUIDChange s u c t) (UnitUid.ps u) True
      (fun v => ?_) (fun v => ?_) h
    · rw [uidInit_handlePS s u c t v]
      by_cases hv : v = UnitUid.ps u <;> simp [hv]
    · rw [count_handlePS s u c t v]
      by_cases hv : v = UnitUid.ps u <;> simp [hv]
  | vsCall u c t =>
    refine step_generic s (HandleVSUIDChange s u c t) (UnitUid.vs u) True
      (fun v => ?_) (fun v => ?_) h
    · rw [uidInit_handleVS s u c t v]
      by_cases hv : v = UnitUid.vs u <;> simp [hv]
    · rw [count_handleVS s u c t v]
      by_cases hv : v = UnitUid.vs u <;> simp [hv]

/-- The invariant carries over any sequence of handler calls. -/
theorem inv_applyHandlerCalls (calls : List HandlerCall) :
    ∀ s : ShaderCacheState, SingleDispatchInv s →
      SingleDispatchInv (applyHandlerCalls s calls) := by
  induction calls with
  | nil => intro s h; exact h
  | cons c cs ih =>
    intro s h
    exact ih (applyHandlerCall s c) (handler_step s c h).1

/-- The fresh subsystem satisfies the single-dispatch invariant. -/
theorem inv_zeroState : SingleDispatchInv zeroState := by
  intro u
  constructor <;> simp [dispatchCount, countUid, zeroState]

/-- C2: across any sequence of UID-change handler calls, each entry's
one-shot initialized flag only ever moves from false to true (monotone,
so at most one transition), a compile work unit is submitted only by the
call whose test-and-set observed the flag false (and that call leaves the
total at one), and every stage-tagged UID accumulates at most one
dispatched compile. -/
theorem uid_single_dispatch (s0 : ShaderCacheState) (calls : List HandlerCall)
    (hInv : SingleDispatchInv s0) :
    SingleDispatchInv (applyHandlerCalls s0 calls) ∧
    ∀ pre c post, calls = pre ++ c :: post →
      (∀ v, uidInitialized (applyHandlerCalls s0 pre) v = true →
          uidInitialized (applyHandlerCall (applyHandlerCalls s0 pre) c) v = true) ∧
      (∀ v, dispatchCount (applyHandlerCalls s0 pre) v
              < dispatchCount (applyHandlerCall (applyHandlerCalls s0 pre) c) v →
          uidInitialized (applyHandlerCalls s0 pre) v = false ∧
          uidInitialized (applyHandlerCall (applyHandlerCalls s0 pre) c) v = true ∧
          dispatchCount (applyHandlerCall (applyHandlerCalls s0 pre) c) v = 1) := by
  refine ⟨inv_applyHandlerCalls calls s0 hInv, ?_⟩
  intro pre c post _
  have hpre : SingleDispatchInv (applyHandlerCalls s0 pre) :=
    inv_applyHandlerCalls pre s0 hInv
  exact ⟨(handler_step _ c hpre).2.1, (handler_step _ c hpre).2.2⟩

/-- C2 witness: two handler calls on the same fresh geometry UID from the
two execution contexts dispatch at most one compile. -/
theorem uid_single_dispatch_witness :
    dispatchCount
      (applyHandlerCalls zeroState
        [HandlerCall.gsCall ⟨5, false⟩ "SRC" true,
         HandlerCall.gsCall ⟨5, false⟩ "SRC" false])
      (UnitUid.gs ⟨5, false⟩) ≤ 1 :=
  ((uid_single_dispatch zeroState
      [HandlerCall.gsCall ⟨5, false⟩ "SRC" true,
       HandlerCall.gsCall ⟨5, false⟩ "SRC" false] inv_zeroState).1
    (UnitUid.gs ⟨5, false⟩)).1

/-- C3 (amended): a geometry handler call whose UID signals passthrough
binds the pre-compiled sentinel as the current geometry bytecode
unconditionally — the one binding, which the submission context reads,
is written regardless of the calling execution context — and performs no
cache lookup, no compile dispatch, and no disk-cache append for that UID
(the whole state is unchanged apart from that binding). -/
theorem gs_passthrough_binds_unconditionally (s : ShaderCacheState)
    (u : GeometryShaderUid) (c : String) (t : Bool) (h : u.passthrough = true) :
    HandleGSUIDChange s u c t =
      { s with s_last_geometry_shader_bytecode := some GsActive.passEntry } :=
  handleGS_of_pass s u c t h

/-- C3 witness: the amended statement at a concrete passthrough UID on an
auxiliary-context call. -/
theorem gs_passthrough_binds_unconditionally_witness :
    HandleGSUIDChange zeroState ⟨7, true⟩ "" false =
      { zeroState with s_last_geometry_shader_bytecode := some GsActive.passEntry } :=
  gs_passthrough_binds_unconditionally zeroState ⟨7, true⟩ "" false rfl

/-- C3 counterexample: an auxiliary-context call (`on_gpu_thread = false`)
with a passthrough UID does touch the submission context's geometry
binding, moving it from null to the sentinel. -/
theorem gs_passthrough_aux_touches_submission_binding :
    zeroState.s_last_geometry_shader_bytecode = none ∧
    (HandleGSUIDChange zeroState ⟨7, true⟩ "" false).s_last_geometry_shader_bytecode
      = some GsActive.passEntry := by
  constructor <;> rfl

/-- C9: querying a stage cache through the by-UID bytecode accessor for an
absent UID inserts a fresh default entry (uncompiled, one-shot flag
clear, zero-valued bytecode) into that cache and returns the zero
bytecode, for each of the three stages. -/
theorem getShaderFromUid_inserts_default (s : ShaderCacheState)
    (gu : GeometryShaderUid) (pu : PixelShaderUid) (vu : VertexShaderUid)
    (hg : gu ∉ cacheKeys s.gs_bytecode_cache)
    (hp : pu ∉ cacheKeys s.ps_bytecode_cache)
    (hv : vu ∉ cacheKeys s.vs_bytecode_cache) :
    GetGeometryShaderFromUid s gu =
      ([], { s with gs_bytecode_cache :=
        s.gs_bytecode_cache ++ [(gu, ByteCodeCacheEntry.mkDefault)] }) ∧
    GetPixelShaderFromUid s pu =
      ([], { s with ps_bytecode_cache :=
        s.ps_bytecode_cache ++ [(pu, ByteCodeCacheEntry.mkDefault)] }) ∧
    GetVertexShaderFromUid s vu =
      ([], { s with vs_bytecode_cache :=
        s.vs_bytecode_cache ++ [(vu, ByteCodeCacheEntry.mkDefault)] }) := by
  have hg2 : cacheFind? s.gs_bytecode_cache gu = none :=
    (cacheFind?_eq_none_iff _ _).2 hg
  have hp2 : cacheFind? s.ps_bytecode_cache pu = none :=
    (cacheFind?_eq_none_iff _ _).2 hp
  have hv2 : cacheFind? s.vs_bytecode_cache vu = none :=
    (cacheFind?_eq_none_iff _ _).2 hv
  refine ⟨?_, ?_, ?_⟩ <;>
    simp [GetGeometryShaderFromUid, GetPixelShaderFromUid, GetVertexShaderFromUid,
      cacheIndex, hg2, hp2, hv2, ByteCodeCacheEntry.mkDefault]

/-- C9 witness: the three accessors at fresh UIDs on the empty caches. -/
theorem getShaderFromUid_inserts_default_witness :
    GetGeometryShaderFromUid zeroState ⟨1, false⟩ =
      ([], { zeroState with gs_bytecode_cache :=
        [(⟨1, false⟩, ByteCodeCacheEntry.mkDefault)] }) ∧
    GetPixelShaderFromUid zeroState ⟨2⟩ =
      ([], { zeroState with ps_bytecode_cache :=
        [(⟨2⟩, ByteCodeCacheEntry.mkDefault)] }) ∧
    GetVertexShaderFromUid zeroState ⟨3⟩ =
      ([], { zeroState with vs_bytecode_cache :=
        [(⟨3⟩, ByteCodeCacheEntry.mkDefault)] }) := by
  have h := getShaderFromUid_inserts_default zeroState ⟨1, false⟩ ⟨2⟩ ⟨3⟩
    (by simp [zeroState, cacheKeys]) (by simp [zeroState, cacheKeys])
    (by simp [zeroState, cacheKeys])
  simpa [zeroState] using h

/-- C10: the filesystem factory returns null exactly when the volume
pointer is null or the constructed filesystem reports itself invalid;
any non-null result is the filesystem constructed over that volume, and
it is valid. -/
theorem createFileSystem_null_iff {V : Type} (parseOk : V → Bool)
    (volume : Option V) :
    (CreateFileSystem parseOk volume = none ↔
      volume = none ∨ ∃ v, volume = some v ∧ parseOk v = false) ∧
    (∀ fs, CreateFileSystem parseOk volume = some fs →
      fs.IsValid = true ∧ ∃ v, volume = some v ∧ fs = mkCFileSystemGCWii parseOk v) := by
  cases volume with
  | none => simp [CreateFileSystem]
  | some v =>
    by_cases h : parseOk v = true
    · constructor
      · simp [CreateFileSystem, CFileSystemGCWii.IsValid, mkCFileSystemGCWii, h]
      · intro fs hfs
        simp [CreateFileSystem, CFileSystemGCWii.IsValid, mkCFileSystemGCWii, h] at hfs
        subst hfs
        simp [CFileSystemGCWii.IsValid, mkCFileSystemGCWii, h]
    · have h2 : parseOk v = false := by simpa using h
      constructor
      · simp [CreateFileSystem, CFileSystemGCWii.IsValid, mkCFileSystemGCWii, h2]
      · intro fs hfs
        simp [CreateFileSystem, CFileSystemGCWii.IsValid, mkCFileSystemGCWii, h2] at hfs

/-- C1 (code-bug evidence): `Clear` has an empty body, so a
debugging-enabled `Init` over a disk cache holding a record still leaves
that record's entry compiled in the stage cache (replayed, not freshly
dispatched: the dispatch log stays empty) and leaves the on-disk cache
contents in place. -/
theorem init_debugging_keeps_disk_replayed_entries :
    cacheGet (ShaderCacheInit zeroState [(⟨5, false⟩, [9, 9])] [] [] true).gs_bytecode_cache
        ⟨5, false⟩ =
      { m_shader_bytecode := [9, 9], m_compiled := true, m_initialized := true,
        code := "" } ∧
    (ShaderCacheInit zeroState [(⟨5, false⟩, [9, 9])] [] [] true).dispatch_log = [] ∧
    (ShaderCacheInit zeroState [(⟨5, false⟩, [9, 9])] [] [] true).s_gs_disk_cache
      = [(⟨5, false⟩, [9, 9])] ∧
    ShaderCacheClear (ShaderCacheInit zeroState [(⟨5, false⟩, [9, 9])] [] [] true)
      = ShaderCacheInit zeroState [(⟨5, false⟩, [9, 9])] [] [] true := by
  refine ⟨by decide, by decide, by decide, rfl⟩

/-- C5 counterexample: a failed vertex-stage compile dumps only the
failing source — the compiler's diagnostic text is absent from the dump
file (the geometry and pixel handlers write both). -/
theorem vs_failure_dump_lacks_diagnostic :
    (ProcCompilationResults (HandleVSUIDChange zeroState ⟨4⟩ "SRC" true)
        (fun _ => some (CompileResult.failure "ERR"))).dump_files
      = [("User/Dump/bad_vs_0000.txt", "SRC")] ∧
    ¬ List.IsInfix "ERR".data "SRC".data := by
  constructor
  · decide
  · decide

/-- C5 (amended): a failed compile leaves the whole cache state untouched
apart from diagnostics — the entry stays uncompiled with its one-shot
flag intact (so no retry is ever dispatched), no disk-cache record is
appended — the failure handler writes an auto-numbered dump file and
raises a warning naming that file; the geometry and pixel dump files
carry the failing source plus the diagnostic text, the vertex dump file
the failing source only. -/
theorem compile_failure_effects (s : ShaderCacheState) (gu : GeometryShaderUid)
    (pu : PixelShaderUid) (vu : VertexShaderUid) (csrc err gsrc2 : String)
    (t : Bool) :
    ResultHandler s { wuid := UnitUid.gs gu, code := csrc }
        (CompileResult.failure err) =
      { s with gs_num_failures := s.gs_num_failures + 1,
               dump_files := s.dump_files ++
                 [(dumpFileName Stage.GS s.gs_num_failures, csrc ++ err)],
               alerts := s.alerts ++
                 [{ stage := Stage.GS,
                    filename := dumpFileName Stage.GS s.gs_num_failures,
                    errorText := err }] } ∧
    ResultHandler s { wuid := UnitUid.ps pu, code := csrc }
        (CompileResult.failure err) =
      { s with ps_num_failures := s.ps_num_failures + 1,
               dump_files := s.dump_files ++
                 [(dumpFileName Stage.PS s.ps_num_failures, csrc ++ err)],
               alerts := s.alerts ++
                 [{ stage := Stage.PS,
                    filename := dumpFileName Stage.PS s.ps_num_failures,
                    errorText := err }] } ∧
    ResultHandler s { wuid := UnitUid.vs vu, code := csrc }
        (CompileResult.failure err) =
      { s with vs_num_failures := s.vs_num_failures + 1,
               dump_files := s.dump_files ++
                 [(dumpFileName Stage.VS s.vs_num_failures, csrc)],
               alerts := s.alerts ++
                 [{ stage := Stage.VS,
                    filename := dumpFileName Stage.VS s.vs_num_failures,
                    errorText := err }] } ∧
    ((cacheGet s.vs_bytecode_cache vu).m_initialized = true →
      (HandleVSUIDChange
          (ResultHandler s { wuid := UnitUid.vs vu, code := csrc }
            (CompileResult.failure err)) vu gsrc2 t).dispatch_log
        = s.dispatch_log) := by
  refine ⟨by simp [ResultHandler], by simp [ResultHandler], by simp [ResultHandler], ?_⟩
  intro hflag
  rw [handleVS_log]
  have hcache : (ResultHandler s { wuid := UnitUid.vs vu, code := csrc }
      (CompileResult.failure err)).vs_bytecode_cache = s.vs_bytecode_cache := by
    simp [ResultHandler]
  rw [hcache, resultHandler_dispatch_log]
  simp [hflag]


/-- `InsertByteCode` publishes to the inserted key. -/
theorem cacheGet_insertByteCodeCache_self {α : Type} [DecidableEq α]
    (c : StageCache α) (k : α) (b : ByteCode) :
    cacheGet (insertByteCodeCache c k b) k =
      { m_shader_bytecode := b, m_compiled := true, m_initialized := true,
        code := (cacheGet c k).code } := by
  simp [insertByteCodeCache, cacheGet_update_index_self]

/-- `InsertByteCode` leaves other keys alone. -/
theorem cacheGet_insertByteCodeCache_ne {α : Type} [DecidableEq α]
    (c : StageCache α) (k k' : α) (b : ByteCode) (h : k' ≠ k) :
    cacheGet (insertByteCodeCache c k b) k' = cacheGet c k' := by
  simp [insertByteCodeCache, cacheGet_update_index_ne _ _ _ _ h]

/-- Replaying a disk cache file: every recorded key reads back as a
compiled, initialized entry holding its last recorded bytecode; other
keys are untouched. -/
theorem cacheGet_readDiskCache {α : Type} [DecidableEq α]
    (records : List (α × ByteCode)) :
    ∀ (c : StageCache α) (k : α),
      cacheGet (readDiskCache c records) k =
        match lookupLastRecord records k with
        | some b => { m_shader_bytecode := b, m_compiled := true,
                      m_initialized := true, code := (cacheGet c k).code }
        | none => cacheGet c k := by
  induction records with
  | nil => intro c k; rfl
  | cons r rs ih =>
    intro c k
    show cacheGet (readDiskCache (insertByteCodeCache c r.1 r.2) rs) k = _
    rw [ih]
    by_cases hk : r.1 = k
    · subst hk
      cases h : lookupLastRecord rs r.1 with
      | some b => simp [lookupLastRecord, h, cacheGet_insertByteCodeCache_self]
      | none => simp [lookupLastRecord, h, cacheGet_insertByteCodeCache_self]
    · have hne : k ≠ r.1 := fun hh => hk hh.symm
      cases h : lookupLastRecord rs k with
      | some b => simp [lookupLastRecord, h, cacheGet_insertByteCodeCache_ne _ _ _ _ hne]
      | none => simp [lookupLastRecord, h, hk, cacheGet_insertByteCodeCache_ne _ _ _ _ hne]

/-- Debug flag or not, `Init` produces the same state (`Clear` is empty). -/
theorem shaderCacheInit_debug_irrelevant (s : ShaderCacheState)
    (gs_records : List (GeometryShaderUid × ByteCode))
    (ps_records : List (PixelShaderUid × ByteCode))
    (vs_records : List (VertexShaderUid × ByteCode)) (dbg : Bool) :
    ShaderCacheInit s gs_records ps_records vs_records dbg =
      ShaderCacheInit s gs_records ps_records vs_records false := by
  unfold ShaderCacheInit ShaderCacheClear
  cases dbg <;> rfl

/-- C6: every record replayed from a stage's disk cache at `Init` lands
in that stage's in-memory cache with its bytecode published, the
compiled flag set and the one-shot flag set, so a later UID-change call
for that UID finds an already-compiled entry and dispatches no compile
(the session's dispatch log stays empty). -/
theorem disk_replay_round_trip
    (gs_records : List (GeometryShaderUid × ByteCode))
    (ps_records : List (PixelShaderUid × ByteCode))
    (vs_records : List (VertexShaderUid × ByteCode)) (dbg : Bool)
    (s : ShaderCacheState)
    (hs : s = ShaderCacheInit zeroState gs_records ps_records vs_records dbg)
    (gu : GeometryShaderUid) (gb : ByteCode)
    (hgr : lookupLastRecord gs_records gu = some gb)
    (pu : PixelShaderUid) (pb : ByteCode)
    (hpr : lookupLastRecord ps_records pu = some pb)
    (vu : VertexShaderUid) (vb : ByteCode)
    (hvr : lookupLastRecord vs_records vu = some vb)
    (gsrc psrc vsrc : String) (t : Bool) :
    cacheGet s.gs_bytecode_cache gu =
      { m_shader_bytecode := gb, m_compiled := true, m_initialized := true,
        code := "" } ∧
    cacheGet s.ps_bytecode_cache pu =
      { m_shader_bytecode := pb, m_compiled := true, m_initialized := true,
        code := "" } ∧
    cacheGet s.vs_bytecode_cache vu =
      { m_shader_bytecode := vb, m_compiled := true, m_initialized := true,
        code := "" } ∧
    s.dispatch_log = [] ∧
    (HandleGSUIDChange s gu gsrc t).dispatch_log = [] ∧
    (HandlePSUIDChange s pu psrc t).dispatch_log = [] ∧
    (HandleVSUIDChange s vu vsrc t).dispatch_log = [] := by
  subst hs
  rw [shaderCacheInit_debug_irrelevant]
  have hgs : cacheGet (ShaderCacheInit zeroState gs_records ps_records vs_records
      false).gs_bytecode_cache gu =
      { m_shader_bytecode := gb, m_compiled := true, m_initialized := true,
        code := "" } := by
    show cacheGet (readDiskCache _ gs_records) gu = _
    rw [cacheGet_readDiskCache, hgr]
    simp [zeroState, cacheGet, cacheFind?, ByteCodeCacheEntry.mkDefault]
  have hps : cacheGet (ShaderCacheInit zeroState gs_records ps_records vs_records
      false).ps_bytecode_cache pu =
      { m_shader_bytecode := pb, m_compiled := true, m_initialized := true,
        code := "" } := by
    show cacheGet (readDiskCache _ ps_records) pu = _
    rw [cacheGet_readDiskCache, hpr]
    simp [zeroState, cacheGet, cacheFind?, ByteCodeCacheEntry.mkDefault]
  have hvs : cacheGet (ShaderCacheInit zeroState gs_records ps_records vs_records
      false).vs_bytecode_cache vu =
      { m_shader_bytecode := vb, m_compiled := true, m_initialized := true,
        code := "" } := by
    show cacheGet (readDiskCache _ vs_records) vu = _
    rw [cacheGet_readDiskCache, hvr]
    simp [zeroState, cacheGet, cacheFind?, ByteCodeCacheEntry.mkDefault]
  have hlog : (ShaderCacheInit zeroState gs_records ps_records vs_records
      false).dispatch_log = [] := rfl
  refine ⟨hgs, hps, hvs, hlog, ?_, ?_, ?_⟩
  · rw [handleGS_log, hgs]
    simp [hlog]
  · rw [handlePS_log, hps]
    simp [hlog]
  · rw [handleVS_log, hvs]
    simp [hlog]

/-- C6 witness: one record per stage, replayed and re-encountered. -/
theorem disk_replay_round_trip_witness :
    cacheGet (ShaderCacheInit zeroState [(⟨5, false⟩, [9, 9])] [(⟨3⟩, [7])]
        [(⟨4⟩, [8])] false).gs_bytecode_cache ⟨5, false⟩ =
      { m_shader_bytecode := [9, 9], m_compiled := true, m_initialized := true,
        code := "" } ∧
    (HandleGSUIDChange (ShaderCacheInit zeroState [(⟨5, false⟩, [9, 9])]
        [(⟨3⟩, [7])] [(⟨4⟩, [8])] false) ⟨5, false⟩ "G" true).dispatch_log = [] :=
  have h := disk_replay_round_trip [(⟨5, false⟩, [9, 9])] [(⟨3⟩, [7])]
    [(⟨4⟩, [8])] false _ rfl ⟨5, false⟩ [9, 9] (by decide) ⟨3⟩ [7] (by decide)
    ⟨4⟩ [8] (by decide) "G" "P" "V" true
  ⟨h.1, h.2.2.2.2.1⟩

/-- After a GPU-thread `PrepareShaders` call, the submission context's
three memo slots hold exactly the call's derived UIDs. -/
theorem prepare_gpu_memos (s : ShaderCacheState) (inp : PrepareInput)
    (fin : ShaderCompilerWorkUnit → Option CompileResult) :
    (PrepareShaders s inp fin true).s_last_geometry_shader_uid = inp.gs_uid ∧
    (PrepareShaders s inp fin true).s_last_pixel_shader_uid = inp.ps_uid ∧
    (PrepareShaders s inp fin true).s_last_vertex_shader_uid = inp.vs_uid := by
  unfold PrepareShaders
  simp only [if_true]
  split
  · rename_i hcond
    simp only [Bool.and_eq_true, Bool.not_eq_true', decide_eq_false_iff_not,
      not_not, proc_s_last_geometry_shader_uid, proc_s_last_pixel_shader_uid,
      proc_s_last_vertex_shader_uid, setTopo_s_last_geometry_shader_uid,
      setTopo_s_last_pixel_shader_uid, setTopo_s_last_vertex_shader_uid] at hcond ⊢
    exact ⟨hcond.1.1.symm, hcond.1.2.symm, hcond.2.symm⟩
  · rename_i hcond
    refine ⟨?_, ?_, ?_⟩ <;>
      (split <;> (try split) <;> (try split)) <;>
      (try simp only [handleVS_pres_s_last_geometry_shader_uid,
        handleVS_pres_s_last_pixel_shader_uid, handleVS_pres_s_last_vertex_shader_uid,
        handlePS_pres_s_last_geometry_shader_uid, handlePS_pres_s_last_pixel_shader_uid,
        handlePS_pres_s_last_vertex_shader_uid, handleGS_pres_s_last_geometry_shader_uid,
        handleGS_pres_s_last_pixel_shader_uid, handleGS_pres_s_last_vertex_shader_uid]) <;>
      simp_all [proc_s_last_geometry_shader_uid, proc_s_last_pixel_shader_uid,
        proc_s_last_vertex_shader_uid, setTopo_s_last_geometry_shader_uid,
        setTopo_s_last_pixel_shader_uid, setTopo_s_last_vertex_shader_uid]

/-- After an auxiliary-context `PrepareShaders` call, that context's three
memo slots hold exactly the call's derived UIDs. -/
theorem prepare_cpu_memos (s : ShaderCacheState) (inp : PrepareInput)
    (fin : ShaderCompilerWorkUnit → Option CompileResult) :
    (PrepareShaders s inp fin false).s_last_cpu_geometry_shader_uid = inp.gs_uid ∧
    (PrepareShaders s inp fin false).s_last_cpu_pixel_shader_uid = inp.ps_uid ∧
    (PrepareShaders s inp fin false).s_last_cpu_vertex_shader_uid = inp.vs_uid := by
  unfold PrepareShaders
  simp only [Bool.false_eq_true, if_false]
  split
  · rename_i hcond
    simp only [Bool.and_eq_true, Bool.not_eq_true', decide_eq_false_iff_not,
      not_not, setTopo_s_last_cpu_geometry_shader_uid,
      setTopo_s_last_cpu_pixel_shader_uid,
      setTopo_s_last_cpu_vertex_shader_uid] at hcond ⊢
    exact ⟨hcond.1.1.symm, hcond.1.2.symm, hcond.2.symm⟩
  · rename_i hcond
    refine ⟨?_, ?_, ?_⟩ <;>
      (split <;> (try split) <;> (try split)) <;>
      (try simp only [handleVS_pres_s_last_cpu_geometry_shader_uid,
        handleVS_pres_s_last_cpu_pixel_shader_uid,
        handleVS_pres_s_last_cpu_vertex_shader_uid,
        handlePS_pres_s_last_cpu_geometry_shader_uid,
        handlePS_pres_s_last_cpu_pixel_shader_uid,
        handlePS_pres_s_last_cpu_vertex_shader_uid,
        handleGS_pres_s_last_cpu_geometry_shader_uid,
        handleGS_pres_s_last_cpu_pixel_shader_uid,
        handleGS_pres_s_last_cpu_vertex_shader_uid]) <;>
      simp_all [setTopo_s_last_cpu_geometry_shader_uid,
        setTopo_s_last_cpu_pixel_shader_uid, setTopo_s_last_cpu_vertex_shader_uid]

/-- `PrepareShaders` leaves the topology at what its own
`SetCurrentPrimitiveTopology` call set. -/
theorem prepare_topology (s : ShaderCacheState) (inp : PrepareInput)
    (fin : ShaderCompilerWorkUnit → Option CompileResult) (t : Bool) :
    (PrepareShaders s inp fin t).s_current_primitive_topology =
      (SetCurrentPrimitiveTopology s inp.gs_primitive_type).s_current_primitive_topology := by
  cases t <;>
    (unfold PrepareShaders
     simp only [Bool.false_eq_true, if_false, if_true]
     split <;>
       (try (split <;> (try split) <;> (try split))) <;>
     simp_all [proc_s_current_primitive_topology,
       handleGS_pres_s_current_primitive_topology,
       handlePS_pres_s_current_primitive_topology,
       handleVS_pres_s_current_primitive_topology])

/-- Setting the topology to what it already computes to is the identity. -/
theorem setTopo_eq_self (x : ShaderCacheState) (p : Nat)
    (h : (SetCurrentPrimitiveTopology x p).s_current_primitive_topology =
      x.s_current_primitive_topology) :
    SetCurrentPrimitiveTopology x p = x := by
  have hrep : SetCurrentPrimitiveTopology x p =
      { x with s_current_primitive_topology :=
        (SetCurrentPrimitiveTopology x p).s_current_primitive_topology } := by
    unfold SetCurrentPrimitiveTopology
    split_ifs <;> rfl
  rw [hrep, h]

/-- The topology write depends only on the primitive type and the old
topology value. -/
theorem setTopo_congr (x y : ShaderCacheState) (p : Nat)
    (h : x.s_current_primitive_topology = y.s_current_primitive_topology) :
    (SetCurrentPrimitiveTopology x p).s_current_primitive_topology =
      (SetCurrentPrimitiveTopology y p).s_current_primitive_topology := by
  unfold SetCurrentPrimitiveTopology
  split_ifs <;> simp [h]

/-- Re-running the topology switch with the same primitive type changes
nothing. -/
theorem setTopo_idem (x : ShaderCacheState) (p : Nat) :
    (SetCurrentPrimitiveTopology (SetCurrentPrimitiveTopology x p)
        p).s_current_primitive_topology =
      (SetCurrentPrimitiveTopology x p).s_current_primitive_topology := by
  unfold SetCurrentPrimitiveTopology
  split_ifs <;> rfl

/-- A state whose submission-context memos already match the input
short-circuits the GPU-thread call to exactly the completion drain. -/
theorem prepare_short_circuit_gpu (s1 : ShaderCacheState) (inp : PrepareInput)
    (fin2 : ShaderCompilerWorkUnit → Option CompileResult)
    (htopo : SetCurrentPrimitiveTopology s1 inp.gs_primitive_type = s1)
    (hg : s1.s_last_geometry_shader_uid = inp.gs_uid)
    (hp : s1.s_last_pixel_shader_uid = inp.ps_uid)
    (hv : s1.s_last_vertex_shader_uid = inp.vs_uid) :
    PrepareShaders s1 inp fin2 true = ProcCompilationResults s1 fin2 := by
  unfold PrepareShaders
  simp only [if_true, htopo, proc_s_last_geometry_shader_uid,
    proc_s_last_pixel_shader_uid, proc_s_last_vertex_shader_uid, hg, hp, hv]
  simp

/-- A state whose auxiliary-context memos already match the input makes
the auxiliary-context call the identity. -/
theorem prepare_short_circuit_cpu (s1 : ShaderCacheState) (inp : PrepareInput)
    (fin2 : ShaderCompilerWorkUnit → Option CompileResult)
    (htopo : SetCurrentPrimitiveTopology s1 inp.gs_primitive_type = s1)
    (hcg : s1.s_last_cpu_geometry_shader_uid = inp.gs_uid)
    (hcp : s1.s_last_cpu_pixel_shader_uid = inp.ps_uid)
    (hcv : s1.s_last_cpu_vertex_shader_uid = inp.vs_uid) :
    PrepareShaders s1 inp fin2 false = s1 := by
  unfold PrepareShaders
  simp only [Bool.false_eq_true, if_false, htopo, hcg, hcp, hcv]
  simp

/-- C4: a second `PrepareShaders` call with graphics state deriving the
same three stage UIDs, from the same execution context, returns right
after the memo comparison: on the GPU thread it is exactly the
pre-comparison completion drain (which dispatches nothing and creates no
cache entry: the dispatch log and all three key sets are unchanged), and
on the auxiliary context it is the identity. -/
theorem prepare_second_call_short_circuits (s : ShaderCacheState)
    (inp : PrepareInput)
    (fin1 fin2 : ShaderCompilerWorkUnit → Option CompileResult) :
    PrepareShaders (PrepareShaders s inp fin1 true) inp fin2 true
      = ProcCompilationResults (PrepareShaders s inp fin1 true) fin2 ∧
    PrepareShaders (PrepareShaders s inp fin1 false) inp fin2 false
      = PrepareShaders s inp fin1 false ∧
    (PrepareShaders (PrepareShaders s inp fin1 true) inp fin2 true).dispatch_log
      = (PrepareShaders s inp fin1 true).dispatch_log ∧
    cacheKeys (PrepareShaders (PrepareShaders s inp fin1 true) inp fin2
        true).gs_bytecode_cache
      = cacheKeys (PrepareShaders s inp fin1 true).gs_bytecode_cache ∧
    cacheKeys (PrepareShaders (PrepareShaders s inp fin1 true) inp fin2
        true).ps_bytecode_cache
      = cacheKeys (PrepareShaders s inp fin1 true).ps_bytecode_cache ∧
    cacheKeys (PrepareShaders (PrepareShaders s inp fin1 true) inp fin2
        true).vs_bytecode_cache
      = cacheKeys (PrepareShaders s inp fin1 true).vs_bytecode_cache := by
  have hmg := prepare_gpu_memos s inp fin1
  have hmc := prepare_cpu_memos s inp fin1
  have htg : SetCurrentPrimitiveTopology (PrepareShaders s inp fin1 true)
      inp.gs_primitive_type = PrepareShaders s inp fin1 true := by
    apply setTopo_eq_self
    calc (SetCurrentPrimitiveTopology (PrepareShaders s inp fin1 true)
            inp.gs_primitive_type).s_current_primitive_topology
        = (SetCurrentPrimitiveTopology (SetCurrentPrimitiveTopology s
            inp.gs_primitive_type) inp.gs_primitive_type).s_current_primitive_topology :=
          setTopo_congr _ _ _ (prepare_topology s inp fin1 true)
      _ = (SetCurrentPrimitiveTopology s
            inp.gs_primitive_type).s_current_primitive_topology := setTopo_idem _ _
      _ = (PrepareShaders s inp fin1 true).s_current_primitive_topology :=
          (prepare_topology s inp fin1 true).symm
  have htc : SetCurrentPrimitiveTopology (PrepareShaders s inp fin1 false)
      inp.gs_primitive_type = PrepareShaders s inp fin1 false := by
    apply setTopo_eq_self
    calc (SetCurrentPrimitiveTopology (PrepareShaders s inp fin1 false)
            inp.gs_primitive_type).s_current_primitive_topology
        = (SetCurrentPrimitiveTopology (SetCurrentPrimitiveTopology s
            inp.gs_primitive_type) inp.gs_primitive_type).s_current_primitive_topology :=
          setTopo_congr _ _ _ (prepare_topology s inp fin1 false)
      _ = (SetCurrentPrimitiveTopology s
            inp.gs_primitive_type).s_current_primitive_topology := setTopo_idem _ _
      _ = (PrepareShaders s inp fin1 false).s_current_primitive_topology :=
          (prepare_topology s inp fin1 false).symm
  have hgpu := prepare_short_circuit_gpu (PrepareShaders s inp fin1 true) inp fin2
    htg hmg.1 hmg.2.1 hmg.2.2
  have hcpu := prepare_short_circuit_cpu (PrepareShaders s inp fin1 false) inp fin2
    htc hmc.1 hmc.2.1 hmc.2.2
  refine ⟨hgpu, hcpu, ?_, ?_, ?_, ?_⟩ <;> rw [hgpu]
  · exact proc_dispatch_log _ _
  · exact proc_keys_gs _ _
  · exact proc_keys_ps _ _
  · exact proc_keys_vs _ _

/-- Unchanged UIDs on the GPU thread: the call is the drain, so the
dirty flag and the dispatch log are untouched. -/
theorem prepare_gpu_unchanged_effects (s : ShaderCacheState) (inp : PrepareInput)
    (fin : ShaderCompilerWorkUnit → Option CompileResult)
    (hg : inp.gs_uid = s.s_last_geometry_shader_uid)
    (hp : inp.ps_uid = s.s_last_pixel_shader_uid)
    (hv : inp.vs_uid = s.s_last_vertex_shader_uid) :
    (PrepareShaders s inp fin true).m_dirty_pso = s.m_dirty_pso ∧
    (PrepareShaders s inp fin true).dispatch_log = s.dispatch_log := by
  unfold PrepareShaders
  simp [proc_s_last_geometry_shader_uid, proc_s_last_pixel_shader_uid,
    proc_s_last_vertex_shader_uid, setTopo_s_last_geometry_shader_uid,
    setTopo_s_last_pixel_shader_uid, setTopo_s_last_vertex_shader_uid,
    hg, hp, hv, proc_m_dirty_pso, setTopo_m_dirty_pso, proc_dispatch_log,
    setTopo_dispatch_log]

/-- Any changed UID on the GPU thread sets the pipeline-dirty flag. -/
theorem prepare_gpu_dirty_of_changed (s : ShaderCacheState) (inp : PrepareInput)
    (fin : ShaderCompilerWorkUnit → Option CompileResult)
    (h : inp.gs_uid ≠ s.s_last_geometry_shader_uid ∨
         inp.ps_uid ≠ s.s_last_pixel_shader_uid ∨
         inp.vs_uid ≠ s.s_last_vertex_shader_uid) :
    (PrepareShaders s inp fin true).m_dirty_pso = true := by
  unfold PrepareShaders
  simp only [if_true, proc_s_last_geometry_shader_uid,
    proc_s_last_pixel_shader_uid, proc_s_last_vertex_shader_uid,
    setTopo_s_last_geometry_shader_uid, setTopo_s_last_pixel_shader_uid,
    setTopo_s_last_vertex_shader_uid]
  split
  · rename_i hcond
    exfalso
    simp only [Bool.and_eq_true, Bool.not_eq_true', decide_eq_false_iff_not,
      not_not] at hcond
    rcases h with h | h | h
    · exact h hcond.1.1
    · exact h hcond.1.2
    · exact h hcond.2
  · (split <;> (try split) <;> (try split)) <;>
      simp [handleGS_pres_m_dirty_pso, handlePS_pres_m_dirty_pso,
        handleVS_pres_m_dirty_pso]

/-- An unchanged geometry UID keeps the submission context's geometry
memo and binding. -/
theorem prepare_gpu_gs_unchanged (s : ShaderCacheState) (inp : PrepareInput)
    (fin : ShaderCompilerWorkUnit → Option CompileResult)
    (hg : inp.gs_uid = s.s_last_geometry_shader_uid) :
    (PrepareShaders s inp fin true).s_last_geometry_shader_uid
      = s.s_last_geometry_shader_uid ∧
    (PrepareShaders s inp fin true).s_last_geometry_shader_bytecode
      = s.s_last_geometry_shader_bytecode := by
  unfold PrepareShaders
  simp only [if_true, proc_s_last_geometry_shader_uid,
    proc_s_last_pixel_shader_uid, proc_s_last_vertex_shader_uid,
    setTopo_s_last_geometry_shader_uid, setTopo_s_last_pixel_shader_uid,
    setTopo_s_last_vertex_shader_uid]
  constructor <;>
    (split <;>
      [(simp [proc_s_last_geometry_shader_uid,
          setTopo_s_last_geometry_shader_uid,
          proc_s_last_geometry_shader_bytecode,
          setTopo_s_last_geometry_shader_bytecode]);
       ((split <;> (try split) <;> (try split)) <;>
        simp_all [handleGS_pres_s_last_geometry_shader_uid,
          handlePS_pres_s_last_geometry_shader_uid,
          handleVS_pres_s_last_geometry_shader_uid,
          handlePS_pres_s_last_geometry_shader_bytecode,
          handleVS_pres_s_last_geometry_shader_bytecode,
          proc_s_last_geometry_shader_uid, setTopo_s_last_geometry_shader_uid,
          proc_s_last_geometry_shader_bytecode,
          setTopo_s_last_geometry_shader_bytecode])])

/-- An unchanged pixel UID keeps the submission context's pixel memo
and binding. -/
theorem prepare_gpu_ps_unchanged (s : ShaderCacheState) (inp : PrepareInput)
    (fin : ShaderCompilerWorkUnit → Option CompileResult)
    (hp : inp.ps_uid = s.s_last_pixel_shader_uid) :
    (PrepareShaders s inp fin true).s_last_pixel_shader_uid = s.s_last_pixel_shader_uid ∧
    (PrepareShaders s inp fin true).s_last_pixel_shader_bytecode = s.s_last_pixel_shader_bytecode := by
  unfold PrepareShaders
  simp only [if_true, proc_s_last_geometry_shader_uid,
    proc_s_last_pixel_shader_uid, proc_s_last_vertex_shader_uid,
    setTopo_s_last_geometry_shader_uid, setTopo_s_last_pixel_shader_uid,
    setTopo_s_last_vertex_shader_uid]
  constructor <;>
    (split <;>
      [(simp [proc_s_last_pixel_shader_uid, setTopo_s_last_pixel_shader_uid, proc_s_last_pixel_shader_bytecode, setTopo_s_last_pixel_shader_bytecode]);
       ((split <;> (try split) <;> (try split)) <;>
        simp_all [handleGS_pres_s_last_pixel_shader_uid,
          handlePS_pres_s_last_pixel_shader_uid,
          handleVS_pres_s_last_pixel_shader_uid,
          handleGS_pres_s_last_pixel_shader_bytecode,
          handleVS_pres_s_last_pixel_shader_bytecode,
          proc_s_last_pixel_shader_uid, setTopo_s_last_pixel_shader_uid, proc_s_last_pixel_shader_bytecode, setTopo_s_last_pixel_shader_bytecode])])

/-- An unchanged vertex UID keeps the submission context's vertex memo
and binding. -/
theorem prepare_gpu_vs_unchanged (s : ShaderCacheState) (inp : PrepareInput)
    (fin : ShaderCompilerWorkUnit → Option CompileResult)
    (hv : inp.vs_uid = s.s_last_vertex_shader_uid) :
    (PrepareShaders s inp fin true).s_last_vertex_shader_uid = s.s_last_vertex_shader_uid ∧
    (PrepareShaders s inp fin true).s_last_vertex_shader_bytecode = s.s_last_vertex_shader_bytecode := by
  unfold PrepareShaders
  simp only [if_true, proc_s_last_geometry_shader_uid,
    proc_s_last_pixel_shader_uid, proc_s_last_vertex_shader_uid,
    setTopo_s_last_geometry_shader_uid, setTopo_s_last_pixel_shader_uid,
    setTopo_s_last_vertex_shader_uid]
  constructor <;>
    (split <;>
      [(simp [proc_s_last_vertex_shader_uid, setTopo_s_last_vertex_shader_uid, proc_s_last_vertex_shader_bytecode, setTopo_s_last_vertex_shader_bytecode]);
       ((split <;> (try split) <;> (try split)) <;>
        simp_all [handleGS_pres_s_last_vertex_shader_uid,
          handlePS_pres_s_last_vertex_shader_uid,
          handleVS_pres_s_last_vertex_shader_uid,
          handleGS_pres_s_last_vertex_shader_bytecode,
          handlePS_pres_s_last_vertex_shader_bytecode,
          proc_s_last_vertex_shader_uid, setTopo_s_last_vertex_shader_uid, proc_s_last_vertex_shader_bytecode, setTopo_s_last_vertex_shader_bytecode])])

/-- A changed geometry UID updates the submission context's geometry
memo and binding on the GPU thread. -/
theorem prepare_gpu_gs_changed (s : ShaderCacheState) (inp : PrepareInput)
    (fin : ShaderCompilerWorkUnit → Option CompileResult)
    (hg : inp.gs_uid ≠ s.s_last_geometry_shader_uid) :
    (PrepareShaders s inp fin true).s_last_geometry_shader_uid = inp.gs_uid ∧
    (PrepareShaders s inp fin true).s_last_geometry_shader_bytecode =
      (if inp.gs_uid.passthrough = true then some GsActive.passEntry
       else some (GsActive.entryFor inp.gs_uid)) := by
  unfold PrepareShaders
  simp only [if_true, proc_s_last_geometry_shader_uid,
    proc_s_last_pixel_shader_uid, proc_s_last_vertex_shader_uid,
    setTopo_s_last_geometry_shader_uid, setTopo_s_last_pixel_shader_uid,
    setTopo_s_last_vertex_shader_uid]
  constructor <;>
    (split <;>
      [(simp_all [proc_s_last_geometry_shader_uid, setTopo_s_last_geometry_shader_uid]);
       ((split <;> (try split) <;> (try split)) <;>
        simp_all [handleGS_pres_s_last_geometry_shader_uid,
          handlePS_pres_s_last_geometry_shader_uid,
          handleVS_pres_s_last_geometry_shader_uid,
          handlePS_pres_s_last_geometry_shader_bytecode,
          handleVS_pres_s_last_geometry_shader_bytecode,
          handleGS_bind,
          proc_s_last_geometry_shader_uid, setTopo_s_last_geometry_shader_uid,
          proc_s_last_geometry_shader_bytecode, setTopo_s_last_geometry_shader_bytecode])])

/-- A changed pixel UID updates the submission context's pixel
memo and binding on the GPU thread. -/
theorem prepare_gpu_ps_changed (s : ShaderCacheState) (inp : PrepareInput)
    (fin : ShaderCompilerWorkUnit → Option CompileResult)
    (hp : inp.ps_uid ≠ s.s_last_pixel_shader_uid) :
    (PrepareShaders s inp fin true).s_last_pixel_shader_uid = inp.ps_uid ∧
    (PrepareShaders s inp fin true).s_last_pixel_shader_bytecode =
      some inp.ps_uid := by
  unfold PrepareShaders
  simp only [if_true, proc_s_last_geometry_shader_uid,
    proc_s_last_pixel_shader_uid, proc_s_last_vertex_shader_uid,
    setTopo_s_last_geometry_shader_uid, setTopo_s_last_pixel_shader_uid,
    setTopo_s_last_vertex_shader_uid]
  constructor <;>
    (split <;>
      [(simp_all [proc_s_last_pixel_shader_uid, setTopo_s_last_pixel_shader_uid]);
       ((split <;> (try split) <;> (try split)) <;>
        simp_all [handleGS_pres_s_last_pixel_shader_uid,
          handlePS_pres_s_last_pixel_shader_uid,
          handleVS_pres_s_last_pixel_shader_uid,
          handleGS_pres_s_last_pixel_shader_bytecode,
          handleVS_pres_s_last_pixel_shader_bytecode,
          handlePS_bind,
          proc_s_last_pixel_shader_uid, setTopo_s_last_pixel_shader_uid,
          proc_s_last_pixel_shader_bytecode, setTopo_s_last_pixel_shader_bytecode])])

/-- A changed vertex UID updates the submission context's vertex
memo and binding on the GPU thread. -/
theorem prepare_gpu_vs_changed (s : ShaderCacheState) (inp : PrepareInput)
    (fin : ShaderCompilerWorkUnit → Option CompileResult)
    (hv : inp.vs_uid ≠ s.s_last_vertex_shader_uid) :
    (PrepareShaders s inp fin true).s_last_vertex_shader_uid = inp.vs_uid ∧
    (PrepareShaders s inp fin true).s_last_vertex_shader_bytecode =
      some inp.vs_uid := by
  unfold PrepareShaders
  simp only [if_true, proc_s_last_geometry_shader_uid,
    proc_s_last_pixel_shader_uid, proc_s_last_vertex_shader_uid,
    setTopo_s_last_geometry_shader_uid, setTopo_s_last_pixel_shader_uid,
    setTopo_s_last_vertex_shader_uid]
  constructor <;>
    (split <;>
      [(simp_all [proc_s_last_vertex_shader_uid, setTopo_s_last_vertex_shader_uid]);
       ((split <;> (try split) <;> (try split)) <;>
        simp_all [handleGS_pres_s_last_vertex_shader_uid,
          handlePS_pres_s_last_vertex_shader_uid,
          handleVS_pres_s_last_vertex_shader_uid,
          handleGS_pres_s_last_vertex_shader_bytecode,
          handlePS_pres_s_last_vertex_shader_bytecode,
          handleVS_bind,
          proc_s_last_vertex_shader_uid, setTopo_s_last_vertex_shader_uid,
          proc_s_last_vertex_shader_bytecode, setTopo_s_last_vertex_shader_bytecode])])

/-- A call in which only the pixel UID changed runs only the pixel
handler: at most one new dispatch, and it is the pixel work unit; the
geometry and vertex caches are exactly the drained ones. -/
theorem prepare_gpu_pixel_only (s : ShaderCacheState) (inp : PrepareInput)
    (fin : ShaderCompilerWorkUnit → Option CompileResult)
    (hg : inp.gs_uid = s.s_last_geometry_shader_uid)
    (hv : inp.vs_uid = s.s_last_vertex_shader_uid)
    (hp : inp.ps_uid ≠ s.s_last_pixel_shader_uid) :
    ((PrepareShaders s inp fin true).dispatch_log = s.dispatch_log ∨
     (PrepareShaders s inp fin true).dispatch_log =
       s.dispatch_log ++ [{ wuid := UnitUid.ps inp.ps_uid, code := inp.ps_code }]) ∧
    (PrepareShaders s inp fin true).gs_bytecode_cache =
      (ProcCompilationResults (SetCurrentPrimitiveTopology s inp.gs_primitive_type)
        fin).gs_bytecode_cache ∧
    (PrepareShaders s inp fin true).vs_bytecode_cache =
      (ProcCompilationResults (SetCurrentPrimitiveTopology s inp.gs_primitive_type)
        fin).vs_bytecode_cache := by
  unfold PrepareShaders
  have hbg : decide (inp.gs_uid ≠ (ProcCompilationResults
      (SetCurrentPrimitiveTopology s inp.gs_primitive_type)
      fin).s_last_geometry_shader_uid) = false := by
    simp [proc_s_last_geometry_shader_uid, setTopo_s_last_geometry_shader_uid, hg]
  have hbv : decide (inp.vs_uid ≠ (ProcCompilationResults
      (SetCurrentPrimitiveTopology s inp.gs_primitive_type)
      fin).s_last_vertex_shader_uid) = false := by
    simp [proc_s_last_vertex_shader_uid, setTopo_s_last_vertex_shader_uid, hv]
  have hbp : decide (inp.ps_uid ≠ (ProcCompilationResults
      (SetCurrentPrimitiveTopology s inp.gs_primitive_type)
      fin).s_last_pixel_shader_uid) = true := by
    simp [proc_s_last_pixel_shader_uid, setTopo_s_last_pixel_shader_uid, hp]
  simp only [if_true, hbg, hbv, hbp, Bool.not_false, Bool.not_true,
    Bool.true_and, Bool.and_false, Bool.false_and, Bool.false_eq_true, if_false,
    Bool.and_true]
  refine ⟨?_, ?_, ?_⟩
  · rw [handlePS_log]
    split
    · left
      simp only [proc_dispatch_log, setTopo_dispatch_log]
    · right
      simp only [proc_dispatch_log, setTopo_dispatch_log]
  · rw [handlePS_pres_gs_bytecode_cache]
  · rw [handlePS_pres_vs_bytecode_cache]

/-- C7: on the submission context, a `PrepareShaders` call with at least
one changed stage UID sets the pipeline-dirty flag; a call with all
three unchanged leaves the flag and the dispatch log untouched; each
unchanged stage keeps its active UID and active bytecode binding while
each changed stage gets its memo and binding updated; and a call in
which only the pixel UID changed dispatches at most the single
pixel-stage work unit, leaving the geometry and vertex active bindings
and caches exactly as the pre-comparison drain left them. -/
theorem prepare_gpu_frame_effects (s : ShaderCacheState) (inp : PrepareInput)
    (fin : ShaderCompilerWorkUnit → Option CompileResult) :
    ((inp.gs_uid ≠ s.s_last_geometry_shader_uid ∨
      inp.ps_uid ≠ s.s_last_pixel_shader_uid ∨
      inp.vs_uid ≠ s.s_last_vertex_shader_uid) →
      (PrepareShaders s inp fin true).m_dirty_pso = true) ∧
    (inp.gs_uid = s.s_last_geometry_shader_uid ∧
     inp.ps_uid = s.s_last_pixel_shader_uid ∧
     inp.vs_uid = s.s_last_vertex_shader_uid →
      (PrepareShaders s inp fin true).m_dirty_pso = s.m_dirty_pso ∧
      (PrepareShaders s inp fin true).dispatch_log = s.dispatch_log) ∧
    (inp.gs_uid = s.s_last_geometry_shader_uid →
      (PrepareShaders s inp fin true).s_last_geometry_shader_uid
        = s.s_last_geometry_shader_uid ∧
      (PrepareShaders s inp fin true).s_last_geometry_shader_bytecode
        = s.s_last_geometry_shader_bytecode) ∧
    (inp.ps_uid = s.s_last_pixel_shader_uid →
      (PrepareShaders s inp fin true).s_last_pixel_shader_uid
        = s.s_last_pixel_shader_uid ∧
      (PrepareShaders s inp fin true).s_last_pixel_shader_bytecode
        = s.s_last_pixel_shader_bytecode) ∧
    (inp.vs_uid = s.s_last_vertex_shader_uid →
      (PrepareShaders s inp fin true).s_last_vertex_shader_uid
        = s.s_last_vertex_shader_uid ∧
      (PrepareShaders s inp fin true).s_last_vertex_shader_bytecode
        = s.s_last_vertex_shader_bytecode) ∧
    (inp.gs_uid ≠ s.s_last_geometry_shader_uid →
      (PrepareShaders s inp fin true).s_last_geometry_shader_uid = inp.gs_uid ∧
      (PrepareShaders s inp fin true).s_last_geometry_shader_bytecode =
        (if inp.gs_uid.passthrough = true then some GsActive.passEntry
         else some (GsActive.entryFor inp.gs_uid))) ∧
    (inp.ps_uid ≠ s.s_last_pixel_shader_uid →
      (PrepareShaders s inp fin true).s_last_pixel_shader_uid = inp.ps_uid ∧
      (PrepareShaders s inp fin true).s_last_pixel_shader_bytecode
        = some inp.ps_uid) ∧
    (inp.vs_uid ≠ s.s_last_vertex_shader_uid →
      (PrepareShaders s inp fin true).s_last_vertex_shader_uid = inp.vs_uid ∧
      (PrepareShaders s inp fin true).s_last_vertex_shader_bytecode
        = some inp.vs_uid) ∧
    (inp.gs_uid = s.s_last_geometry_shader_uid ∧
     inp.vs_uid = s.s_last_vertex_shader_uid ∧
     inp.ps_uid ≠ s.s_last_pixel_shader_uid →
      ((PrepareShaders s inp fin true).dispatch_log = s.dispatch_log ∨
       (PrepareShaders s inp fin true).dispatch_log =
         s.dispatch_log ++ [{ wuid := UnitUid.ps inp.ps_uid, code := inp.ps_code }]) ∧
      (PrepareShaders s inp fin true).gs_bytecode_cache =
        (ProcCompilationResults (SetCurrentPrimitiveTopology s inp.gs_primitive_type)
          fin).gs_bytecode_cache ∧
      (PrepareShaders s inp fin true).vs_bytecode_cache =
        (ProcCompilationResults (SetCurrentPrimitiveTopology s inp.gs_primitive_type)
          fin).vs_bytecode_cache) := by
  refine ⟨fun h => prepare_gpu_dirty_of_changed s inp fin h,
    fun h => prepare_gpu_unchanged_effects s inp fin h.1 h.2.1 h.2.2,
    fun h => prepare_gpu_gs_unchanged s inp fin h,
    fun h => prepare_gpu_ps_unchanged s inp fin h,
    fun h => prepare_gpu_vs_unchanged s inp fin h,
    fun h => prepare_gpu_gs_changed s inp fin h,
    fun h => prepare_gpu_ps_changed s inp fin h,
    fun h => prepare_gpu_vs_changed s inp fin h,
    fun h => prepare_gpu_pixel_only s inp fin h.1 h.2.1 h.2.2⟩

/-- With a null active pointer the readiness conjunction is false. -/
theorem activeAllCompiled_false_of_none (s : ShaderCacheState)
    (h : s.s_last_geometry_shader_bytecode.isNone ∨
         s.s_last_pixel_shader_bytecode.isNone ∨
         s.s_last_vertex_shader_bytecode.isNone) :
    activeAllCompiled s = false := by
  unfold activeAllCompiled
  rcases h with h | h | h <;> rw [Option.isNone_iff_eq_none] at h
  · simp [derefGs, h]
  · cases hg : derefGs s <;> simp [derefPs, h]
  · cases hg : derefGs s <;> cases hp : derefPs s <;> simp [derefVs, h]

/-- Whatever the spin loop returns is the readiness conjunction read in
the state it returns. -/
theorem testShadersLoop_exact
    (oracles : Nat → ShaderCompilerWorkUnit → Option CompileResult) (fa : Bool) :
    ∀ (fuel k : Nat) (s : ShaderCacheState) (b : Bool) (s' : ShaderCacheState),
      testShadersLoop oracles fa fuel k s = some (b, s') →
      b = activeAllCompiled s' := by
  intro fuel
  induction fuel with
  | zero => intro k s b s' h; simp [testShadersLoop] at h
  | succ m ih =>
    intro k s b s' h
    unfold testShadersLoop at h
    by_cases hr : activeAllCompiled s = true
    · simp [hr] at h
      rw [h.1, h.2.symm, hr]
    · simp [hr] at h
      by_cases hfa : fa = true
      · subst hfa
        simp at h
        exact (h.2 ▸ h.1).symm
      · have hfa2 : fa = false := by simpa using hfa
        subst hfa2
        simp at h
        exact ih (k + 1) _ b s' h

/-- In spin mode the loop only ever returns true. -/
theorem testShadersLoop_spin_true
    (oracles : Nat → ShaderCompilerWorkUnit → Option CompileResult) :
    ∀ (fuel k : Nat) (s : ShaderCacheState) (b : Bool) (s' : ShaderCacheState),
      testShadersLoop oracles false fuel k s = some (b, s') → b = true := by
  intro fuel
  induction fuel with
  | zero => intro k s b s' h; simp [testShadersLoop] at h
  | succ m ih =>
    intro k s b s' h
    unfold testShadersLoop at h
    by_cases hr : activeAllCompiled s = true
    · simp [hr] at h
      exact h.1
    · simp [hr] at h
      exact ih (k + 1) _ b s' h

/-- C8: `TestShaders` returns exactly the conjunction "all three active
entries are compiled", read in the state it finishes in; under the
fully-asynchronous configuration it terminates after at most one
completion drain and returns that conjunction without further waiting;
in spin mode it returns true only once all three active entries are
compiled — the only false return is the null-active-pointer guard,
which drains nothing. -/
theorem testShaders_ready_spec (s : ShaderCacheState)
    (oracles : Nat → ShaderCompilerWorkUnit → Option CompileResult)
    (fuel : Nat) (fa : Bool) :
    (∀ b s', TestShaders s oracles fa fuel = some (b, s') →
      b = activeAllCompiled s') ∧
    (1 ≤ fuel →
      TestShaders s oracles true fuel = some (activeAllCompiled s, s) ∨
      TestShaders s oracles true fuel =
        some (activeAllCompiled (ProcCompilationResults s (oracles 0)),
              ProcCompilationResults s (oracles 0))) ∧
    (∀ b s', TestShaders s oracles false fuel = some (b, s') → b = false →
      s' = s ∧ (s.s_last_geometry_shader_bytecode.isNone ∨
                s.s_last_pixel_shader_bytecode.isNone ∨
                s.s_last_vertex_shader_bytecode.isNone)) := by
  refine ⟨?_, ?_, ?_⟩
  · intro b s' h
    unfold TestShaders at h
    split at h
    · rename_i hnull
      simp at h
      simp only [Bool.or_eq_true] at hnull
      obtain ⟨hb, hs⟩ := h
      subst hb
      subst hs
      exact (activeAllCompiled_false_of_none s (by tauto)).symm
    · exact testShadersLoop_exact oracles fa fuel 0 s b s' h
  · intro hfuel
    unfold TestShaders
    split
    · rename_i hnull
      left
      simp only [Bool.or_eq_true] at hnull
      rw [activeAllCompiled_false_of_none s (by tauto)]
    · obtain ⟨m, rfl⟩ : ∃ m, fuel = m + 1 := by
        cases fuel with
        | zero => exact absurd hfuel (by simp)
        | succ m => exact ⟨m, rfl⟩
      unfold testShadersLoop
      by_cases hr : activeAllCompiled s = true
      · left
        simp [hr]
      · right
        simp [hr]
  · intro b s' h hb
    unfold TestShaders at h
    split at h
    · rename_i hnull
      simp at h
      simp only [Bool.or_eq_true] at hnull
      exact ⟨h.2.symm, by tauto⟩
    · have := testShadersLoop_spin_true oracles fuel 0 s b s' h
      rw [hb] at this
      exact absurd this (by simp)
